import Mathlib

/-!
Verification of the ebpy mesh-editing helper layer.

The Python sources under src/ are shallowly embedded below.  Python floats
are idealized as real numbers; the host application state (interaction
mode, per-object selection flags, active object, vertex buffers) is an
explicit `HostState` record threaded through every operation.  A raised
Python exception is an `Option PyErr` paired with the state at the moment
the exception escapes, since Python mutations performed before a raise
are not rolled back.  Host calls that the caller of the library can
observe (mode switches, selection writes, buffer writes) are additionally
recorded in an event list.
-/

namespace Ebpy

/-! ### Vector math (mathutils.Vector, idealized over the reals) -/

structure Vec3 where
  x : ℝ
  y : ℝ
  z : ℝ

instance : Add Vec3 := ⟨fun a b => ⟨a.x + b.x, a.y + b.y, a.z + b.z⟩⟩

instance : Zero Vec3 := ⟨⟨0, 0, 0⟩⟩

instance : SMul ℝ Vec3 := ⟨fun c v => ⟨c * v.x, c * v.y, c * v.z⟩⟩

/-- Squared Euclidean norm of a 3-vector. -/
def Vec3.lengthSq (v : Vec3) : ℝ := v.x ^ 2 + v.y ^ 2 + v.z ^ 2

/-- mathutils Vector.length, the Euclidean norm. -/
noncomputable def Vec3.length (v : Vec3) : ℝ := Real.sqrt v.lengthSq

/-- mathutils Vector.normalized: the vector scaled by the reciprocal of its
length.  On the zero vector this yields the zero vector again, matching
mathutils; all call sites in the sources guard the zero case anyway. -/
noncomputable def Vec3.normalized (v : Vec3) : Vec3 := (1 / v.length) • v

/-! ### Matrices (mathutils.Matrix).  Blender object world matrices are
4 by 4; the sources only ever use `matrix_world.inverted_safe().to_3x3()`. -/

abbrev Mat3 := Matrix (Fin 3) (Fin 3) ℝ

abbrev Mat4 := Matrix (Fin 4) (Fin 4) ℝ

/-- mathutils Matrix.to_3x3: the upper-left 3 by 3 block. -/
def to_3x3 (M : Mat4) : Mat3 := fun i j => M i.castSucc j.castSucc

/-- mathutils Matrix.inverted_safe: the matrix inverse.  For an invertible
matrix this is the true inverse; the epsilon fallback mathutils applies to
singular matrices is not modelled (the development only evaluates it on
invertible world transforms). -/
noncomputable def inverted_safe (M : Mat4) : Mat4 := M⁻¹

/-- Application of a 3 by 3 matrix to a vector, mathutils `mat @ vec`. -/
def mat3MulVec (M : Mat3) (v : Vec3) : Vec3 :=
  ⟨M 0 0 * v.x + M 0 1 * v.y + M 0 2 * v.z,
   M 1 0 * v.x + M 1 1 * v.y + M 1 2 * v.z,
   M 2 0 * v.x + M 2 1 * v.y + M 2 2 * v.z⟩

/-! ### Python string primitives.  The core String.toUpper and
String.startsWith do not reduce definitionally, so str.upper and
str.startswith are embedded over the character list; on the ASCII tokens
the sources use they agree with the Python methods. -/

/-- str.upper. -/
def pyUpper (s : String) : String := String.mk (s.data.map Char.toUpper)

/-- str.startswith. -/
def pyStartsWith (s p : String) : Bool := p.data.isPrefixOf s.data

/-! ### Python errors and observable host events -/

/-- The exception kinds the embedded code can raise.  ContextError and its
subclass ModeError come from src/_context.py; indexError models a Python
IndexError from an out-of-range sequence access; runtimeError models a
RuntimeError raised by a host (bpy) primitive. -/
inductive PyErr where
  | contextError (msg : String)
  | modeError (msg : String)
  | indexError
  | runtimeError (msg : String)
deriving DecidableEq

/-- Host calls observable from outside the library: mode switches
(bpy.ops.object.mode_set), selection writes (Object.select_set),
active-object writes (view_layer.objects.active), persisted-buffer writes
(foreach_set) and mesh-update signals (Mesh.update / update_edit_mesh). -/
inductive HostEvent where
  | modeSet (target : String)
  | selectSet (name : String) (value : Bool)
  | setActive (name : String)
  | bufferWrite (name : String)
  | meshUpdate (name : String)
deriving DecidableEq

/-! ### Host state -/

/-- One bpy object: name, type tag, world transform, persisted vertex
buffer, selection flag, and whether the object is linked into the active
view layer (Object.select_set raises a RuntimeError when it is not, which
is why src/select.py wraps select_set in try/except). -/
structure ObjData where
  name : String
  typ : String
  matrix_world : Mat4
  verts : List Vec3
  sel : Bool
  in_view_layer : Bool

/-- The host application state.  `mode` is the bpy.context.mode string
(OBJECT, EDIT_MESH, EDIT_CURVE, SCULPT, ...); `active` is the name held in
view_layer.objects.active; `has_view_layer` models whether
bpy.context.view_layer is present (src/_context.py checks it and raises
when it is None); `events` records observable host calls. -/
structure HostState where
  mode : String
  objects : List ObjData
  active : Option String
  has_view_layer : Bool
  events : List HostEvent

/-- Result of running a stateful Python fragment: `none` paired with the
final state on normal return, `some e` paired with the state at the moment
exception `e` escapes. -/
abbrev Res := Option PyErr × HostState

/-- bpy.data.objects.get(name). -/
def dataObjectsGet (s : HostState) (name : String) : Option ObjData :=
  s.objects.find? (fun o => o.name = name)

/-- bpy.context.selected_objects: objects selected in the current view
layer. -/
def selectedObjects (s : HostState) : List ObjData :=
  s.objects.filter (fun o => o.sel && o.in_view_layer)

/-- Raw per-object selection-flag write (shared by selectSetOp). -/
def setObjSel (s : HostState) (name : String) (b : Bool) : HostState :=
  { s with
    objects := s.objects.map (fun o => if o.name = name then { o with sel := b } else o),
    events := s.events ++ [.selectSet name b] }

/-- Object.select_set: raises a RuntimeError when the object is not linked
into the current view layer, otherwise writes the selection flag. -/
def selectSetOp (s : HostState) (name : String) (b : Bool) : Res :=
  match dataObjectsGet s name with
  | none => (some (.runtimeError "select_set on an invalid object reference"), s)
  | some o =>
      if o.in_view_layer then (none, setObjSel s name b)
      else (some (.runtimeError "select_set on an object outside the view layer"), s)

/-- The mode string the host enters for a given mode_set target: requesting
EDIT resolves against the active object type (EDIT_MESH for a mesh,
EDIT_CURVE for a curve, ...). -/
def hostModeFor (s : HostState) (target : String) : String :=
  if target = "EDIT" then
    match s.active with
    | some nm =>
        match dataObjectsGet s nm with
        | some o => "EDIT_" ++ o.typ
        | none => "EDIT"
    | none => "EDIT"
  else target

/-- bpy.ops.object.mode_set. -/
def modeSetOp (s : HostState) (target : String) : HostState :=
  { s with mode := hostModeFor s target, events := s.events ++ [.modeSet target] }

/-- view_layer.objects.active = obj. -/
def setActiveOp (s : HostState) (name : String) : HostState :=
  { s with active := some name, events := s.events ++ [.setActive name] }

/-- Replace the persisted vertex buffer of the named object (in-memory
bmesh mutation or numpy write; no host event by itself). -/
def updateVerts (s : HostState) (name : String) (cos : List Vec3) : HostState :=
  { s with objects := s.objects.map (fun o => if o.name = name then { o with verts := cos } else o) }

/-! ### src/_context.py -/

/-- `bpy.context.mode == "OBJECT"`. -/
def _is_object_mode (s : HostState) : Bool := s.mode = "OBJECT"

/-- `bpy.context.mode.startswith("EDIT")`: EDIT_MESH and EDIT_CURVE are
different EDIT modes, both count as edit-level. -/
def _is_edit_mode (s : HostState) : Bool := pyStartsWith s.mode "EDIT"

/-- Snapshot of selection plus active object for later restore
(SelectionState in src/_context.py). -/
structure SelectionState where
  active_name : Option String
  selected_names : List String

/-- capture_selection: requires a view layer, then records the active
object name and the names of the selected objects.  Pure read, no state
change. -/
def capture_selection (s : HostState) : Except PyErr SelectionState :=
  if s.has_view_layer then
    .ok ⟨s.active, (selectedObjects s).map (fun o => o.name)⟩
  else .error (.contextError "No active view layer in context.")

/-- The deselect loop of restore_selection:
`for o in bpy.context.selected_objects: o.select_set(False)` over the list
of names snapshotted at loop start. -/
def deselLoop : List String → HostState → Res
  | [], s => (none, s)
  | n :: rest, s =>
      match selectSetOp s n false with
      | (some e, s1) => (some e, s1)
      | (none, s1) => deselLoop rest s1

/-- The restore loop of restore_selection: look each snapshotted name up in
bpy.data.objects, silently skip names that no longer exist, select the
rest.  select_set itself can raise (object no longer in the view layer)
and no handler catches it here. -/
def reselLoop : List String → HostState → Res
  | [], s => (none, s)
  | n :: rest, s =>
      match dataObjectsGet s n with
      | none => reselLoop rest s
      | some _ =>
          match selectSetOp s n true with
          | (some e, s1) => (some e, s1)
          | (none, s1) => reselLoop rest s1

/-- The final step of restore_selection: restore the active object if the
snapshot recorded one and it still exists. -/
def restoreActive (st : SelectionState) (s : HostState) : HostState :=
  match st.active_name with
  | none => s
  | some nm =>
      match dataObjectsGet s nm with
      | none => s
      | some _ => setActiveOp s nm

/-- restore_selection(state, deselect_all_first=True): require the view
layer, deselect everything currently selected, re-select every snapshotted
name that still exists, then restore the active object if it still
exists.  There is no exception handler in this function: a failing
select_set propagates to the caller. -/
def restore_selection (st : SelectionState) (deselect_all_first : Bool) (s : HostState) : Res :=
  if s.has_view_layer then
    let step1 : Res :=
      if deselect_all_first then deselLoop ((selectedObjects s).map (fun o => o.name)) s
      else (none, s)
    match step1 with
    | (some e, s1) => (some e, s1)
    | (none, s1) =>
        match reselLoop st.selected_names s1 with
        | (some e, s2) => (some e, s2)
        | (none, s2) => (none, restoreActive st s2)
  else (some (.contextError "No active view layer in context."), s)

/-- preserve_selection(restore=True): capture a snapshot, run the body,
and in a finally block call restore_selection.  Python finally semantics:
an exception raised by the restore replaces an in-flight body exception. -/
def preserve_selection (restore : Bool) (body : HostState → Res) (s : HostState) : Res :=
  match capture_selection s with
  | .error e => (some e, s)
  | .ok st =>
      let r := body s
      if restore then
        let r2 := restore_selection st true r.2
        (r2.1 <|> r.1, r2.2)
      else r

/-- The block inside the preserve_selection scope of set_active: select
the object, make it active, run the body. -/
def set_active_body (nm : String) (select : Bool) (body : HostState → Res) (s0 : HostState) : Res :=
  match (if select then selectSetOp s0 nm true else (none, s0)) with
  | (some e, s1) => (some e, s1)
  | (none, s1) =>
      if s1.has_view_layer then body (setActiveOp s1 nm)
      else (some (.contextError "No active view layer in context."), s1)

/-- set_active(obj, select=True): validate the object, then inside a
preserve_selection scope select it, make it active, and run the body.
`objName = none` models passing Python None. -/
def set_active (objName : Option String) (select : Bool) (body : HostState → Res) (s : HostState) : Res :=
  match objName with
  | none => (some (.contextError "Object is None."), s)
  | some nm => preserve_selection true (set_active_body nm select body) s

/-- The try-block of the mode context manager: switch to the requested
target mode (idempotent guard: switch only when not already there), or
raise ModeError on an unrecognized target, then run the body. -/
def modeSwitchAndBody (target : String) (body : HostState → Res) (s : HostState) : Res :=
  if target = "OBJECT" then
    body (if _is_object_mode s then s else modeSetOp s "OBJECT")
  else if target = "EDIT" then
    body (if _is_edit_mode s then s else modeSetOp s "EDIT")
  else
    (some (.modeError ("Unsupported target_mode " ++ target ++ ". Use OBJECT or EDIT.")), s)

/-- The finally-block of the mode context manager, translated with the
nesting exactly as it appears in src/_context.py: the branch for a
previous EDIT mode is nested under `prev_mode == "OBJECT"` (an elif of the
inner if), so it can never run.  The whole block is wrapped in
try/except-pass; in this model the restore primitives do not raise, so the
wrapper is the identity on errors. -/
def modeRestore (prev_mode : String) (s : HostState) : HostState :=
  if prev_mode = "OBJECT" then
    if ¬ _is_object_mode s then modeSetOp s "OBJECT"
    else if pyStartsWith prev_mode "EDIT" then
      (if ¬ _is_edit_mode s then modeSetOp s "EDIT" else s)
    else s
  else s

/-- The try/finally block of the mode context manager, run inside its
set_active scope: switch-and-run, then the restore attempt. -/
def modeScope_body (target prev_mode : String) (body : HostState → Res) (s1 : HostState) : Res :=
  ((modeSwitchAndBody target body s1).1,
   modeRestore prev_mode (modeSwitchAndBody target body s1).2)

/-- The mode(obj, target_mode) context manager with a body: validate the
object, uppercase the target, record the current mode, then inside
set_active(obj) switch mode, run the body, and finally attempt the (buggy)
mode restore; the set_active exit then restores selection. -/
def modeScope (objName : Option String) (target_mode : String) (body : HostState → Res) (s : HostState) : Res :=
  match objName with
  | none => (some (.contextError "Object is None."), s)
  | some nm =>
      set_active (some nm) true (modeScope_body (pyUpper target_mode) s.mode body) s

/-- edit_mode(obj). -/
def edit_mode (objName : Option String) (body : HostState → Res) (s : HostState) : Res :=
  modeScope objName "EDIT" body s

/-- object_mode(obj). -/
def object_mode (objName : Option String) (body : HostState → Res) (s : HostState) : Res :=
  modeScope objName "OBJECT" body s

/-! ### Shared per-vertex delta application

`MeshSession.move_vertices` applies the delta with a sequential Python
loop; `move_mesh_fast` goes through a numpy fancy-indexed in-place add,
which bounds-checks the whole index array before mutating and adds the
delta at most once per distinct index. -/

/-- The explicit-index loop of MeshSession.move_vertices:
`for i in verts: verts_seq[i].co += d`.  An out-of-range index raises
IndexError, leaving the vertices already visited displaced. -/
def loopIdx (d : Vec3) : List Nat → List Vec3 → Option PyErr × List Vec3
  | [], cos => (none, cos)
  | i :: rest, cos =>
      if h : i < cos.length then loopIdx d rest (cos.set i (cos.get ⟨i, h⟩ + d))
      else (some .indexError, cos)

/-- Pointwise form of a fancy-indexed add: position k of the buffer gains
the delta exactly when k is a member of the index list.  `k` is the index
of the head of the remaining buffer. -/
def addMem (d : Vec3) (idxs : List Nat) : List Vec3 → Nat → List Vec3
  | [], _ => []
  | c :: cs, k => (if k ∈ idxs then c + d else c) :: addMem d idxs cs (k + 1)

/-- numpy `co[idx] += d`: bounds-check every index first (IndexError with
the buffer untouched on failure), then add the delta once per distinct
index. -/
def fastApplyIdx (d : Vec3) (idxs : List Nat) (cos : List Vec3) : Except PyErr (List Vec3) :=
  if idxs.all (fun i => i < cos.length) then .ok (addMem d idxs cos 0)
  else .error .indexError

/-! ### src/mesh_session.py -/

/-- The body of MeshSession.move_vertices after the `bm is None` check,
acting on the vertex buffer of the bmesh: zero distance and zero-length
direction are silent no-ops; the delta is the normalized direction scaled
by the distance, re-expressed through the inverse world matrix for WORLD
space; an unrecognized space raises; otherwise the delta is applied to all
vertices or to the explicitly supplied indices by a sequential loop. -/
noncomputable def move_vertices_core (M : Mat4) (direction : Vec3) (distance : ℝ)
    (space : String) (vertIdx : Option (List Nat)) (cos : List Vec3) :
    Option PyErr × List Vec3 :=
  if distance = 0 then (none, cos)
  else
    if direction.length = 0 then (none, cos)
    else
      let delta := distance • direction.normalized
      let sp := pyUpper space
      if sp = "WORLD" then
        let d := mat3MulVec (to_3x3 (inverted_safe M)) delta
        match vertIdx with
        | none => (none, cos.map (fun c => c + d))
        | some idxs => loopIdx d idxs cos
      else if sp = "LOCAL" then
        match vertIdx with
        | none => (none, cos.map (fun c => c + delta))
        | some idxs => loopIdx delta idxs cos
      else (some (.contextError "Space must be LOCAL or WORLD."), cos)

/-- MeshSession constructor validation: None or a non-Object raises, a
non-mesh object raises.  An object reference that no longer resolves is
folded into the first case. -/
def meshSessionValidate (s : HostState) (objName : Option String) : Option PyErr :=
  match objName with
  | none => some (.contextError "Expected a bpy.types.Object")
  | some nm =>
      match dataObjectsGet s nm with
      | none => some (.contextError "Expected a bpy.types.Object")
      | some o =>
          if o.typ = "MESH" then none
          else some (.contextError "Expected MESH object.")

namespace MeshSession

/-- MeshSession.move_vertices on an entered session whose bmesh is the
live edit-time buffer of the named object: run the shared core over the
object vertex buffer and store the result back (an in-memory bmesh
mutation, not a host signal). -/
noncomputable def move_vertices (nm : String) (direction : Vec3) (distance : ℝ)
    (space : String) (vertIdx : Option (List Nat)) (s : HostState) : Res :=
  match dataObjectsGet s nm with
  | none => (some (.runtimeError "invalid object reference"), s)
  | some o =>
      ((move_vertices_core o.matrix_world direction distance space vertIdx o.verts).1,
       updateVerts s nm
         (move_vertices_core o.matrix_world direction distance space vertIdx o.verts).2)

end MeshSession

/-- `with MeshSession(obj, switch_to_edit=True) as sess: body` — the only
session shape the move_mesh entry point uses.  Constructor validation
happens before any guard.  __enter__ enters edit_mode(obj) and attaches
bmesh.from_edit_mesh(obj.data), which requires the host to actually be in
mesh edit mode; __exit__ runs even when the body raised, signals
update_edit_mesh first, and exits the mode guard last.

The BMeshSession class mesh/ops.py imports (src/mesh/bmesh_session.py) is
not among the sources; per the spec (GeometrySession, section 4.3) it is
the same scoped session the repository also ships as MeshSession in
src/mesh_session.py, which is what this definition follows. -/
noncomputable def meshSessionScope (objName : Option String)
    (body : String → HostState → Res) (s : HostState) : Res :=
  match meshSessionValidate s objName with
  | some e => (some e, s)
  | none =>
      match objName with
      | none => (some (.contextError "Expected a bpy.types.Object"), s)
      | some nm =>
          edit_mode (some nm) (fun s1 =>
            if s1.mode = "EDIT_MESH" then
              ((body nm s1).1,
               { (body nm s1).2 with events := (body nm s1).2.events ++ [.meshUpdate nm] })
            else (some (.runtimeError "from_edit_mesh outside mesh edit mode"), s1)) s

/-! ### src/mesh/data_ops.py -/

/-- move_mesh_fast: the direct-buffer strategy.  Validates the object,
refuses to run while the host reports EDIT_MESH, silently no-ops on zero
distance or zero-length direction, computes the delta exactly as the
session does, then bulk-reads the persisted buffer, applies the delta
through numpy and bulk-writes it back followed by Mesh.update.  No mode or
selection call is ever issued. -/
noncomputable def move_mesh_fast (objName : Option String) (direction : Vec3) (distance : ℝ)
    (space : String) (vertIdx : Option (List Nat)) (s : HostState) : Res :=
  match objName with
  | none => (some (.contextError "Expected a mesh object."), s)
  | some nm =>
      match dataObjectsGet s nm with
      | none => (some (.contextError "Expected a mesh object."), s)
      | some o =>
          if o.typ ≠ "MESH" then (some (.contextError "Expected a mesh object."), s)
          else if s.mode = "EDIT_MESH" then
            (some (.contextError "FAST backend cannot run in Edit Mode. Use BMESH backend."), s)
          else if distance = 0 then (none, s)
          else if direction.length = 0 then (none, s)
          else
            let delta := distance • direction.normalized
            let sp := pyUpper space
            if sp = "WORLD" then
              let d := mat3MulVec (to_3x3 (inverted_safe o.matrix_world)) delta
              match vertIdx with
              | none =>
                  (none, { updateVerts s nm (o.verts.map (fun c => c + d)) with
                            events := s.events ++ [.bufferWrite nm, .meshUpdate nm] })
              | some idxs =>
                  match fastApplyIdx d idxs o.verts with
                  | .error e => (some e, s)
                  | .ok cos =>
                      (none, { updateVerts s nm cos with
                                events := s.events ++ [.bufferWrite nm, .meshUpdate nm] })
            else if sp = "LOCAL" then
              match vertIdx with
              | none =>
                  (none, { updateVerts s nm (o.verts.map (fun c => c + delta)) with
                            events := s.events ++ [.bufferWrite nm, .meshUpdate nm] })
              | some idxs =>
                  match fastApplyIdx delta idxs o.verts with
                  | .error e => (some e, s)
                  | .ok cos =>
                      (none, { updateVerts s nm cos with
                                events := s.events ++ [.bufferWrite nm, .meshUpdate nm] })
            else (some (.contextError "Space must be LOCAL or WORLD."), s)

/-! ### src/mesh/backend.py and src/mesh/ops.py -/

inductive MeshBackend where
  | BMESH
  | AUTO
  | FAST
deriving DecidableEq

/-- The topological arm of move_mesh: a mesh session with switch_to_edit
true whose body is move_vertices with the same arguments. -/
noncomputable def sessionMove (objName : Option String) (direction : Vec3) (distance : ℝ)
    (space : String) (vertIdx : Option (List Nat)) (s : HostState) : Res :=
  meshSessionScope objName
    (fun nm s1 => MeshSession.move_vertices nm direction distance space vertIdx s1) s

namespace Ops

/-- move_mesh from src/mesh/ops.py: a forced FAST backend raises while the
host reports EDIT_MESH and otherwise calls move_mesh_fast directly; AUTO
decides from the current mode on every call, using move_mesh_fast exactly
when the mode is not EDIT_MESH; every remaining case (AUTO while in
EDIT_MESH, or a forced BMESH backend) routes to the session. -/
noncomputable def move_mesh (objName : Option String) (direction : Vec3) (distance : ℝ)
    (space : String) (backend : MeshBackend) (vertIdx : Option (List Nat))
    (s : HostState) : Res :=
  if backend = .FAST then
    if s.mode = "EDIT_MESH" then
      (some (.contextError "FAST backend cannot run in Edit Mode. Use AUTO or BMESH"), s)
    else move_mesh_fast objName direction distance space vertIdx s
  else if backend = .AUTO ∧ s.mode ≠ "EDIT_MESH" then
    move_mesh_fast objName direction distance space vertIdx s
  else sessionMove objName direction distance space vertIdx s

end Ops

/-! ### src/mesh_ops.py -/

/-- bmesh.ops.translate over an explicit index list inside
mesh_ops._move_bmesh: the list comprehension `[bm.verts[i] for i in
verts]` bounds-checks every index before the translate runs, and the
translate then displaces each collected vertex. -/
def _move_bmesh (d : Vec3) (vertIdx : Option (List Nat)) (cos : List Vec3) :
    Except PyErr (List Vec3) :=
  match vertIdx with
  | none => .ok (cos.map (fun c => c + d))
  | some idxs => fastApplyIdx d idxs cos

/-- The part of mesh_ops.move_mesh that runs inside the guards: attach the
edit-mesh bmesh (requires the host to actually be in mesh edit mode),
translate the collected vertices, signal update_edit_mesh. -/
def meshOpsEditBody (nm : String) (d : Vec3) (vertIdx : Option (List Nat))
    (s1 : HostState) : Res :=
  if s1.mode = "EDIT_MESH" then
    match dataObjectsGet s1 nm with
    | none => (some (.runtimeError "invalid object reference"), s1)
    | some o1 =>
        match _move_bmesh d vertIdx o1.verts with
        | .error e => (some e, s1)
        | .ok cos =>
            (none, { updateVerts s1 nm cos with
                      events := s1.events ++ [.meshUpdate nm] })
  else (some (.runtimeError "from_edit_mesh outside mesh edit mode"), s1)

namespace MeshOps

/-- move_mesh from src/mesh_ops.py: validate the object, silently no-op on
a zero-length direction (there is no zero-distance check in this variant),
compute the delta, validate the space before any guard, then inside
preserve_selection and edit_mode attach the edit-mesh bmesh, translate,
and signal update_edit_mesh. -/
noncomputable def move_mesh (objName : Option String) (direction : Vec3) (distance : ℝ)
    (space : String) (vertIdx : Option (List Nat)) (s : HostState) : Res :=
  match objName with
  | none => (some (.contextError "Got None. Object was not found or not returned correctly."), s)
  | some nm =>
      match dataObjectsGet s nm with
      | none => (some (.contextError "Got None. Object was not found or not returned correctly."), s)
      | some o =>
          if o.typ ≠ "MESH" then (some (.contextError "Expected a MESH object."), s)
          else if direction.length = 0 then (none, s)
          else
            let delta := distance • direction.normalized
            let sp := pyUpper space
            if ¬ (sp = "LOCAL" ∨ sp = "WORLD") then
              (some (.contextError "Space must be LOCAL or WORLD"), s)
            else
              let d := if sp = "WORLD" then
                  mat3MulVec (to_3x3 (inverted_safe o.matrix_world)) delta
                else delta
              preserve_selection true (fun s0 =>
                edit_mode (some nm) (meshOpsEditBody nm d vertIdx) s0) s

end MeshOps

/-- Effect of the deselect pass of restore_selection on one object. -/
def deselName (ns : List String) (o : ObjData) : ObjData :=
  if o.name ∈ ns then { o with sel := false } else o

/-- Effect of the reselect pass of restore_selection on one object. -/
def reselName (ns : List String) (o : ObjData) : ObjData :=
  if o.name ∈ ns then { o with sel := true } else o

/-! ### Views and concrete scenes used by the theorems -/

/-- The body `pass`: a with-block that does nothing. -/
def pureBody : HostState → Res := fun s => (none, s)

/-- The persisted vertex buffer of the named object, when it exists. -/
def vertsOf (s : HostState) (nm : String) : Option (List Vec3) :=
  (dataObjectsGet s nm).map (fun o => o.verts)

/-- Selection flags by object, for stating selection preservation. -/
def selView (s : HostState) : List (String × Bool) :=
  s.objects.map (fun o => (o.name, o.sel))

/-- Name, type and view-layer linkage by object: the parts of the scene a
library operation never creates or destroys. -/
def sceneView (s : HostState) : List (String × String × Bool) :=
  s.objects.map (fun o => (o.name, o.typ, o.in_view_layer))

/-- Whether an event list contains a mode-switch host call. -/
def hasModeSet (evs : List HostEvent) : Bool :=
  evs.any (fun e => match e with | .modeSet _ => true | _ => false)

/-- A one-mesh scene: object Cube, world transform M, buffer vs, selection
flag b. -/
def cubeScene (M : Mat4) (vs : List Vec3) (b : Bool) : ObjData :=
  ⟨"Cube", "MESH", M, vs, b, true⟩

/-- Scene for the mode-guard run: host in mesh edit mode, Cube selected
and active. -/
def sC1 : HostState := ⟨"EDIT_MESH", [cubeScene 1 [] true], some "Cube", true, []⟩

/-- Scene for the selection-guard run: object A selected and active view
layer present. -/
def sC9 : HostState := ⟨"OBJECT", [⟨"A", "MESH", 1, [], true, true⟩], none, true, []⟩

/-- A body that unlinks object A from the view layer (the object still
exists in bpy.data.objects). -/
def unlinkA : HostState → Res := fun s =>
  (none, { s with objects := s.objects.map (fun o =>
      if o.name = "A" then { o with in_view_layer := false } else o) })

/-- Host in curve edit mode, with a mesh object Cube at the origin. -/
def sCurve : HostState := ⟨"EDIT_CURVE", [cubeScene 1 [⟨0, 0, 0⟩] false], some "Cube", true, []⟩

/-- Host in object mode, one mesh Cube with one vertex at the origin. -/
def sObj : HostState := ⟨"OBJECT", [cubeScene 1 [⟨0, 0, 0⟩] false], some "Cube", true, []⟩

/-- Host in mesh edit mode, Cube with two vertices at the origin (a live
session is open on it). -/
def sEdit2 : HostState := ⟨"EDIT_MESH", [cubeScene 1 [⟨0, 0, 0⟩, ⟨0, 0, 0⟩] false], some "Cube", true, []⟩

/-- A pure uniform-scale world transform: scale 2, no rotation, no
translation (diagonal 2, 2, 2, 1). -/
def scaleM : Mat4 := Matrix.diagonal (fun i => if (i : ℕ) < 3 then 2 else 1)

/-- Its 4 by 4 inverse, exhibited explicitly (diagonal 1/2, 1/2, 1/2, 1). -/
noncomputable def scaleMInv : Mat4 := Matrix.diagonal (fun i => if (i : ℕ) < 3 then 1 / 2 else 1)

/-- Host in object mode, one mesh Cube scaled by two. -/
def sScale : HostState := ⟨"OBJECT", [cubeScene scaleM [⟨0, 0, 0⟩] false], some "Cube", true, []⟩

/-- Host in object mode with a mesh Cube and a curve object Curve1, Cube
active. -/
def sC8 : HostState :=
  ⟨"OBJECT", [cubeScene 1 [⟨0, 0, 0⟩] false, ⟨"Curve1", "CURVE", 1, [], false, true⟩],
   some "Cube", true, []⟩

/-! ### Evaluation lemmas for the vector math -/

theorem Vec3.ext_iff2 (a b : Vec3) : a = b ↔ a.x = b.x ∧ a.y = b.y ∧ a.z = b.z := by
  constructor
  · intro h; cases h; exact ⟨rfl, rfl, rfl⟩
  · rintro ⟨h1, h2, h3⟩; cases a; cases b; simp only at h1 h2 h3; rw [h1, h2, h3]

theorem Vec3.add_def (a b : Vec3) : a + b = ⟨a.x + b.x, a.y + b.y, a.z + b.z⟩ := rfl

theorem Vec3.smul_def (c : ℝ) (v : Vec3) : c • v = ⟨c * v.x, c * v.y, c * v.z⟩ := rfl

theorem Vec3.zero_def : (0 : Vec3) = ⟨0, 0, 0⟩ := rfl


theorem Vec3.length_unitZ : Vec3.length ⟨0, 0, 1⟩ = 1 := by
  rw [Vec3.length]
  have h : Vec3.lengthSq ⟨0, 0, 1⟩ = 1 := by simp [Vec3.lengthSq]
  rw [h, Real.sqrt_one]

theorem Vec3.normalized_unitZ : Vec3.normalized ⟨0, 0, 1⟩ = ⟨0, 0, 1⟩ := by
  rw [Vec3.normalized, Vec3.length_unitZ]
  simp [Vec3.smul_def]

theorem Vec3.length_eq_zero_iff (v : Vec3) : v.length = 0 ↔ v = ⟨0, 0, 0⟩ := by
  rw [Vec3.length, Real.sqrt_eq_zero']
  constructor
  · intro h
    simp only [Vec3.lengthSq] at h
    have hx : v.x = 0 := by nlinarith [sq_nonneg v.x, sq_nonneg v.y, sq_nonneg v.z]
    have hy : v.y = 0 := by nlinarith [sq_nonneg v.x, sq_nonneg v.y, sq_nonneg v.z]
    have hz : v.z = 0 := by nlinarith [sq_nonneg v.x, sq_nonneg v.y, sq_nonneg v.z]
    rw [Vec3.ext_iff2]
    exact ⟨hx, hy, hz⟩
  · intro h
    rw [h]
    simp [Vec3.lengthSq]

theorem smul_normalized_unitZ (k : ℝ) : k • Vec3.normalized ⟨0, 0, 1⟩ = ⟨0, 0, k⟩ := by
  rw [Vec3.normalized_unitZ]
  simp [Vec3.smul_def]

/-- Evaluation of the direct-buffer run on the EDIT_CURVE scene: the call
succeeds and writes the displaced buffer back. -/
theorem fastRunCurve :
    move_mesh_fast (some "Cube") ⟨0, 0, 1⟩ 1 "LOCAL" none sCurve =
      (none, ⟨"EDIT_CURVE", [cubeScene 1 [⟨0, 0, 1⟩] false], some "Cube", true,
        [.bufferWrite "Cube", .meshUpdate "Cube"]⟩) := by
  rw [move_mesh_fast]
  simp +decide [sCurve, cubeScene, dataObjectsGet, updateVerts,
    Vec3.length_unitZ, smul_normalized_unitZ, Vec3.add_def]

/-- C1: the mode guard, entered with a valid object while the host is in
mesh edit mode and asked for OBJECT mode, exits normally yet leaves the
host in OBJECT mode: the previously recorded edit-level mode is not
restored, because the restore branch for a previous EDIT mode sits inside
the `prev_mode == "OBJECT"` branch in src/_context.py and is therefore
unreachable, contradicting both the claim and the docstring of `mode`. -/
theorem C1_mode_guard_edit_restore_bug :
    (modeScope (some "Cube") "OBJECT" pureBody sC1).1 = none ∧
    sC1.mode = "EDIT_MESH" ∧
    (modeScope (some "Cube") "OBJECT" pureBody sC1).2.mode = "OBJECT" := by
  refine ⟨by decide, rfl, by decide⟩

/-- Routing of a forced FAST backend outside EDIT_MESH: straight to
move_mesh_fast. -/
theorem opsFastRunCurve :
    Ops.move_mesh (some "Cube") ⟨0, 0, 1⟩ 1 "LOCAL" .FAST none sCurve =
      (none, ⟨"EDIT_CURVE", [cubeScene 1 [⟨0, 0, 1⟩] false], some "Cube", true,
        [.bufferWrite "Cube", .meshUpdate "Cube"]⟩) := by
  have h : Ops.move_mesh (some "Cube") ⟨0, 0, 1⟩ 1 "LOCAL" .FAST none sCurve =
      move_mesh_fast (some "Cube") ⟨0, 0, 1⟩ 1 "LOCAL" none sCurve := by
    rw [Ops.move_mesh]
    simp +decide [sCurve]
  rw [h, fastRunCurve]

/-- C3 counterexample: with the host in EDIT_CURVE, an edit-level mode by
the repository's own _is_edit_mode helper, a forced FAST call does not
fail with the unsafe-backend error: the guard in src/mesh/ops.py compares
the mode to EDIT_MESH only, so the forced direct-buffer call proceeds and
mutates the persisted geometry. -/
theorem C3_forced_fast_edit_curve_no_error :
    pyStartsWith sCurve.mode "EDIT" = true ∧
    vertsOf sCurve "Cube" = some [⟨0, 0, 0⟩] ∧
    (Ops.move_mesh (some "Cube") ⟨0, 0, 1⟩ 1 "LOCAL" .FAST none sCurve).1 = none ∧
    vertsOf (Ops.move_mesh (some "Cube") ⟨0, 0, 1⟩ 1 "LOCAL" .FAST none sCurve).2 "Cube" =
      some [⟨0, 0, 1⟩] := by
  refine ⟨by decide, rfl, ?_, ?_⟩
  · rw [opsFastRunCurve]
  · rw [opsFastRunCurve]; rfl

/-- C4 counterexample: with the host in EDIT_CURVE, an edit-level mode,
an AUTO call is routed to the direct-buffer strategy (the policy in
src/mesh/ops.py tests only for EDIT_MESH) and succeeds, while the
topological strategy on the same input fails: the claimed routing
direct-buffer-iff-not-edit-level does not hold. -/
theorem C4_auto_routes_fast_in_edit_curve :
    pyStartsWith sCurve.mode "EDIT" = true ∧
    Ops.move_mesh (some "Cube") ⟨0, 0, 1⟩ 1 "LOCAL" .AUTO none sCurve =
      move_mesh_fast (some "Cube") ⟨0, 0, 1⟩ 1 "LOCAL" none sCurve ∧
    (Ops.move_mesh (some "Cube") ⟨0, 0, 1⟩ 1 "LOCAL" .AUTO none sCurve).1 = none ∧
    (sessionMove (some "Cube") ⟨0, 0, 1⟩ 1 "LOCAL" none sCurve).1 =
      some (.runtimeError "from_edit_mesh outside mesh edit mode") := by
  have h : Ops.move_mesh (some "Cube") ⟨0, 0, 1⟩ 1 "LOCAL" .AUTO none sCurve =
      move_mesh_fast (some "Cube") ⟨0, 0, 1⟩ 1 "LOCAL" none sCurve := by
    rw [Ops.move_mesh]
    simp +decide [sCurve]
  refine ⟨by decide, h, ?_, by decide⟩
  rw [h, fastRunCurve]

theorem smul_zero_vec (v : Vec3) : (0 : ℝ) • v = ⟨0, 0, 0⟩ := by
  simp [Vec3.smul_def]

/-- Evaluation of mesh_ops.move_mesh at distance zero from object mode:
there is no zero-distance early return in this variant, so the call goes
through the full guard stack with a zero delta. -/
theorem meshOpsZeroRun :
    MeshOps.move_mesh (some "Cube") ⟨0, 0, 1⟩ 0 "LOCAL" none sObj =
      (none, ⟨"OBJECT", [cubeScene 1 [⟨0, 0, 0⟩] false], some "Cube", true,
        [.selectSet "Cube" true, .setActive "Cube", .modeSet "EDIT", .meshUpdate "Cube",
         .modeSet "OBJECT", .selectSet "Cube" false, .setActive "Cube", .setActive "Cube"]⟩) := by
  rw [MeshOps.move_mesh]
  simp +decide [sObj, cubeScene, dataObjectsGet, updateVerts, Vec3.length_unitZ, meshOpsEditBody,
    smul_zero_vec, Vec3.add_def, preserve_selection, capture_selection, selectedObjects,
    edit_mode, modeScope, set_active, set_active_body, modeScope_body, selectSetOp,
    setObjSel, setActiveOp, modeSwitchAndBody,
    _is_object_mode, _is_edit_mode, modeSetOp, hostModeFor, modeRestore, restore_selection,
    deselLoop, reselLoop, restoreActive, _move_bmesh, pureBody]

/-- C6 counterexample: a zero-distance call through mesh_ops.move_mesh is
not a no-op in the observable sense: with the host initially in object
mode the call issues a mode_set to EDIT (and a matching switch back), plus
selection writes, even though the vertex buffer is bit-identical and the
final mode equals the initial one.  The modeSet event is only emitted when
an actual switch happens, so a mode change was observed during the call. -/
theorem C6_zero_distance_not_noop :
    (MeshOps.move_mesh (some "Cube") ⟨0, 0, 1⟩ 0 "LOCAL" none sObj).1 = none ∧
    vertsOf (MeshOps.move_mesh (some "Cube") ⟨0, 0, 1⟩ 0 "LOCAL" none sObj).2 "Cube" =
      vertsOf sObj "Cube" ∧
    (HostEvent.modeSet "EDIT") ∈
      (MeshOps.move_mesh (some "Cube") ⟨0, 0, 1⟩ 0 "LOCAL" none sObj).2.events ∧
    sObj.events = [] := by
  refine ⟨?_, ?_, ?_, rfl⟩
  · rw [meshOpsZeroRun]
  · rw [meshOpsZeroRun]; rfl
  · rw [meshOpsZeroRun]; decide

theorem one_smul_unitZ : (1 : ℝ) • Vec3.normalized ⟨0, 0, 1⟩ = ⟨0, 0, 1⟩ := by
  rw [Vec3.normalized_unitZ]
  simp [Vec3.smul_def]

/-- Evaluation of the session move with the explicit index list [0, 5] on
a two-vertex buffer: index 0 is displaced, then index 5 raises IndexError,
and the method returns with the mutated prefix in place. -/
theorem sessionPrefixRun :
    MeshSession.move_vertices "Cube" ⟨0, 0, 1⟩ 1 "LOCAL" (some [0, 5]) sEdit2 =
      (some .indexError, ⟨"EDIT_MESH", [cubeScene 1 [⟨0, 0, 1⟩, ⟨0, 0, 0⟩] false],
        some "Cube", true, []⟩) := by
  rw [MeshSession.move_vertices]
  simp +decide [sEdit2, cubeScene, dataObjectsGet, updateVerts, move_vertices_core,
    Vec3.length_unitZ, one_smul_unitZ, loopIdx, Vec3.add_def]

/-- C2 counterexample: a single call to MeshSession.move_vertices with the
explicit index list [0, 5] on a two-vertex mesh displaces vertex 0 by the
full delta and then fails on the out-of-range index 5, leaving exactly a
proper prefix of the supplied list displaced: the per-index loop in
src/mesh_session.py mutates as it goes. -/
theorem C2_session_prefix_displaced :
    (MeshSession.move_vertices "Cube" ⟨0, 0, 1⟩ 1 "LOCAL" (some [0, 5]) sEdit2).1 =
      some .indexError ∧
    vertsOf sEdit2 "Cube" = some [⟨0, 0, 0⟩, ⟨0, 0, 0⟩] ∧
    vertsOf (MeshSession.move_vertices "Cube" ⟨0, 0, 1⟩ 1 "LOCAL" (some [0, 5]) sEdit2).2 "Cube" =
      some [⟨0, 0, 1⟩, ⟨0, 0, 0⟩] ∧
    ((⟨0, 0, 1⟩ : Vec3) ≠ ⟨0, 0, 0⟩) := by
  refine ⟨?_, rfl, ?_, ?_⟩
  · rw [sessionPrefixRun]
  · rw [sessionPrefixRun]; rfl
  · intro h
    have hz := congrArg Vec3.z h
    norm_num at hz

theorem scaleM_inv_eq : inverted_safe scaleM = scaleMInv := by
  rw [inverted_safe]
  apply Matrix.inv_eq_right_inv
  rw [scaleM, scaleMInv, Matrix.diagonal_mul_diagonal]
  have h : (fun i : Fin 4 => (if (i : ℕ) < 3 then (2 : ℝ) else 1) * (if (i : ℕ) < 3 then 1 / 2 else 1)) =
      fun _ => (1 : ℝ) := by
    funext i
    by_cases hi : (i : ℕ) < 3 <;> simp [hi]
  rw [h]
  exact Matrix.diagonal_one

theorem scaleM_world_delta :
    mat3MulVec (to_3x3 (inverted_safe scaleM)) ⟨0, 0, 2⟩ = ⟨0, 0, 1⟩ := by
  rw [scaleM_inv_eq]
  simp +decide [scaleMInv, to_3x3, mat3MulVec, Matrix.diagonal_apply]

/-- The upper-left 3 by 3 block of the pure-scale world transform is twice
the identity: its rotational component is the identity rotation. -/
theorem scaleM_to3x3 : to_3x3 scaleM = (2 : ℝ) • (1 : Mat3) := by
  funext i j
  simp only [scaleM, to_3x3, Matrix.diagonal_apply, Matrix.smul_apply, Matrix.one_apply,
    Fin.castSucc_inj]
  have hlt : ((i.castSucc : Fin 4) : ℕ) < 3 := by
    rw [Fin.coe_castSucc]
    exact i.isLt
  by_cases hij : i = j <;> simp [hij, hlt]

/-- Evaluation of the direct-buffer world-space run on the scaled scene:
the code multiplies the delta by the inverse of the full linear part, so
scale 2 halves the displacement. -/
theorem fastRunScale :
    move_mesh_fast (some "Cube") ⟨0, 0, 1⟩ 2 "WORLD" none sScale =
      (none, ⟨"OBJECT", [cubeScene scaleM [⟨0, 0, 1⟩] false], some "Cube", true,
        [.bufferWrite "Cube", .meshUpdate "Cube"]⟩) := by
  rw [move_mesh_fast]
  simp +decide [sScale, cubeScene, dataObjectsGet, updateVerts, Vec3.length_unitZ,
    smul_normalized_unitZ, scaleM_world_delta, Vec3.add_def]

/-- C5 counterexample: on an object whose world transform is a pure scale
by two (rotational part the identity, translation zero), a world-space
move by distance 2 along (0,0,1) displaces the vertex by (0,0,1), not by
normalize(direction)*distance = (0,0,2) as the claim predicts when the
scale component is excluded from the conversion: the code applies the
inverse of the full 3 by 3 linear part, scale included. -/
theorem C5_world_scale_included :
    to_3x3 scaleM = (2 : ℝ) • (1 : Mat3) ∧
    (move_mesh_fast (some "Cube") ⟨0, 0, 1⟩ 2 "WORLD" none sScale).1 = none ∧
    vertsOf sScale "Cube" = some [⟨0, 0, 0⟩] ∧
    vertsOf (move_mesh_fast (some "Cube") ⟨0, 0, 1⟩ 2 "WORLD" none sScale).2 "Cube" =
      some [⟨0, 0, 1⟩] ∧
    (2 : ℝ) • Vec3.normalized ⟨0, 0, 1⟩ = ⟨0, 0, 2⟩ ∧
    ((⟨0, 0, 1⟩ : Vec3) ≠ ⟨0, 0, 2⟩) := by
  refine ⟨scaleM_to3x3, ?_, rfl, ?_, smul_normalized_unitZ 2, ?_⟩
  · rw [fastRunScale]
  · rw [fastRunScale]; rfl
  · intro h
    have hz := congrArg Vec3.z h
    norm_num at hz

/-- C9 counterexample: a preserve_selection scope whose body merely
unlinks the previously selected object A from the view layer (A still
exists in bpy.data.objects) raises a RuntimeError out of the scope exit:
restore_selection finds A, calls select_set on it, select_set raises, and
no handler in src/_context.py swallows it, so the body succeeds but the
guard exit itself propagates an error. -/
theorem C9_guard_exit_raises :
    (unlinkA sC9).1 = none ∧
    (preserve_selection true unlinkA sC9).1 =
      some (.runtimeError "select_set on an object outside the view layer") := by
  refine ⟨rfl, by decide⟩


/-! ### Map and lookup lemmas for the host-state machinery -/

theorem find?_map_name (f : ObjData → ObjData) (hf : ∀ o, (f o).name = o.name) (nm : String) :
    ∀ l : List ObjData, (l.map f).find? (fun o => o.name = nm) =
      (l.find? (fun o => o.name = nm)).map f := by
  intro l
  induction l with
  | nil => rfl
  | cons a t ih =>
      by_cases h : a.name = nm
      · rw [List.map_cons, List.find?_cons_of_pos _ (by simp [hf, h]),
          List.find?_cons_of_pos _ (by simp [h])]
        rfl
      · rw [List.map_cons, List.find?_cons_of_neg _ (by simp [hf, h]),
          List.find?_cons_of_neg _ (by simp [h]), ih]

theorem dataObjectsGet_map_objects (s : HostState) (f : ObjData → ObjData)
    (hf : ∀ o, (f o).name = o.name) (nm : String) (md : String) (a : Option String) (vl : Bool)
    (evs : List HostEvent) :
    dataObjectsGet ⟨md, s.objects.map f, a, vl, evs⟩ nm =
      (dataObjectsGet s nm).map f := by
  unfold dataObjectsGet
  exact find?_map_name f hf nm s.objects

theorem addMem_nil (d : Vec3) : ∀ (cos : List Vec3) (k : Nat), addMem d [] cos k = cos := by
  intro cos
  induction cos with
  | nil => intro k; rfl
  | cons c t ih => intro k; rw [addMem]; simp [ih]

theorem addMem_length (d : Vec3) (idxs : List Nat) :
    ∀ (cos : List Vec3) (k : Nat), (addMem d idxs cos k).length = cos.length := by
  intro cos
  induction cos with
  | nil => intro k; rfl
  | cons c t ih => intro k; rw [addMem]; simp [ih]

theorem addMem_get (d : Vec3) (idxs : List Nat) :
    ∀ (cos : List Vec3) (k j : Nat) (h : j < cos.length),
      (addMem d idxs cos k).get ⟨j, by rw [addMem_length]; exact h⟩ =
        if (k + j) ∈ idxs then cos.get ⟨j, h⟩ + d else cos.get ⟨j, h⟩ := by
  intro cos
  induction cos with
  | nil => intro k j h; cases h
  | cons c t ih =>
      intro k j h
      cases j with
      | zero => simp [addMem]
      | succ j =>
          simp only [addMem]
          have hj : j < t.length := Nat.lt_of_succ_lt_succ h
          have := ih (k + 1) j hj
          simp only [List.get_cons_succ]
          rw [this]
          have hk : k + 1 + j = k + (j + 1) := by omega
          rw [hk]

theorem addMem_zero_delta (idxs : List Nat) :
    ∀ (cos : List Vec3) (k : Nat), addMem ⟨0, 0, 0⟩ idxs cos k = cos := by
  intro cos
  induction cos with
  | nil => intro k; rfl
  | cons c t ih =>
      intro k
      rw [addMem, ih]
      have : c + ⟨0, 0, 0⟩ = c := by
        rw [Vec3.add_def]
        simp
      rw [this]
      simp

theorem loopIdx_bounds_ok (d : Vec3) :
    ∀ (idxs : List Nat) (cos : List Vec3),
      (∀ i ∈ idxs, i < cos.length) → idxs.Nodup →
      loopIdx d idxs cos = (none, addMem d idxs cos 0) := by
  intro idxs
  induction idxs with
  | nil => intro cos _ _; rw [loopIdx, addMem_nil]
  | cons i rest ih =>
      intro cos hb hnd
      have hi : i < cos.length := hb i (by simp)
      rw [loopIdx]
      rw [dif_pos hi]
      have hbs : ∀ j ∈ rest, j < (cos.set i (cos.get ⟨i, hi⟩ + d)).length := by
        intro j hj
        rw [List.length_set]
        exact hb j (by simp [hj])
      have hnds : rest.Nodup := (List.nodup_cons.mp hnd).2
      have hnotin : i ∉ rest := (List.nodup_cons.mp hnd).1
      rw [ih _ hbs hnds]
      congr 1
      apply List.ext_get
      · rw [addMem_length, List.length_set, addMem_length]
      · intro j h1 h2
        have hj : j < cos.length := by
          rw [addMem_length, List.length_set] at h1
          exact h1
        have hjs : j < (cos.set i (cos.get ⟨i, hi⟩ + d)).length := by
          rw [List.length_set]
          exact hj
        rw [addMem_get d rest _ 0 j hjs, addMem_get d (i :: rest) cos 0 j hj]
        simp only [Nat.zero_add]
        by_cases hji : j = i
        · subst hji
          simp [hnotin, List.getElem_set]
        · have hij : ¬ (i = j) := fun hh => hji hh.symm
          by_cases hjr : j ∈ rest <;> simp [hjr, hji, hij, List.getElem_set]

/-! ### Characterization of restore_selection -/

theorem deselName_name (ns : List String) (o : ObjData) : (deselName ns o).name = o.name := by
  unfold deselName
  by_cases h : o.name ∈ ns <;> simp [h]

theorem reselName_name (ns : List String) (o : ObjData) : (reselName ns o).name = o.name := by
  unfold reselName
  by_cases h : o.name ∈ ns <;> simp [h]

theorem find?_name_of_mem :
    ∀ (l : List ObjData) (o : ObjData), o ∈ l → (l.map (fun x => x.name)).Nodup →
      l.find? (fun x => x.name = o.name) = some o := by
  intro l
  induction l with
  | nil => intro o ho; cases ho
  | cons a t ih =>
      intro o ho hnd
      rcases List.mem_cons.mp ho with h | h
      · subst h
        exact List.find?_cons_of_pos _ (by simp)
      · rw [List.map_cons] at hnd
        have hnd2 := List.nodup_cons.mp hnd
        have hne : ¬ (a.name = o.name) := by
          intro he
          exact hnd2.1 (he ▸ (List.mem_map.mpr ⟨o, h, rfl⟩))
        rw [List.find?_cons_of_neg _ (by simp [hne])]
        exact ih o h hnd2.2

theorem dataObjectsGet_of_mem (s : HostState) (o : ObjData) (ho : o ∈ s.objects)
    (hnd : (s.objects.map (fun x => x.name)).Nodup) : dataObjectsGet s o.name = some o :=
  find?_name_of_mem s.objects o ho hnd

theorem selectSetOp_found (s : HostState) (n : String) (b : Bool) (o : ObjData)
    (ho : dataObjectsGet s n = some o) (hvl : o.in_view_layer = true) :
    selectSetOp s n b = (none, setObjSel s n b) := by
  unfold selectSetOp
  rw [ho]
  simp [hvl]

theorem setObjSel_as_map (s : HostState) (n : String) (b : Bool) :
    setObjSel s n b =
      ⟨s.mode, s.objects.map (fun o => if o.name = n then { o with sel := b } else o),
       s.active, s.has_view_layer, s.events ++ [.selectSet n b]⟩ := rfl

theorem dataObjectsGet_setObjSel (s : HostState) (n : String) (b : Bool) (m : String) :
    dataObjectsGet (setObjSel s n b) m =
      (dataObjectsGet s m).map (fun o => if o.name = n then { o with sel := b } else o) := by
  rw [setObjSel_as_map]
  apply dataObjectsGet_map_objects
  intro o
  by_cases h : o.name = n <;> simp [h]

theorem deselLoop_spec :
    ∀ (ns : List String) (s : HostState),
      (∀ n ∈ ns, ∃ o, dataObjectsGet s n = some o ∧ o.in_view_layer = true) →
      ∃ evs, deselLoop ns s =
        (none, ⟨s.mode, s.objects.map (deselName ns), s.active, s.has_view_layer,
                s.events ++ evs⟩) := by
  intro ns
  induction ns with
  | nil =>
      intro s _
      refine ⟨[], ?_⟩
      rw [deselLoop]
      have h2 : ∀ o ∈ s.objects, deselName [] o = o := by
        intro o _
        simp [deselName]
      rw [List.map_congr_left h2]
      simp
  | cons n rest ih =>
      intro s hns
      obtain ⟨o, ho, hvl⟩ := hns n (by simp)
      have hstep := selectSetOp_found s n false o ho hvl
      have hns2 : ∀ m ∈ rest, ∃ o2, dataObjectsGet (setObjSel s n false) m = some o2 ∧
          o2.in_view_layer = true := by
        intro m hm
        obtain ⟨o2, ho2, hvl2⟩ := hns m (by simp [hm])
        refine ⟨if o2.name = n then { o2 with sel := false } else o2, ?_, ?_⟩
        · rw [dataObjectsGet_setObjSel, ho2]
          rfl
        · by_cases h : o2.name = n <;> simp [h, hvl2]
      obtain ⟨evs, hevs⟩ := ih (setObjSel s n false) hns2
      refine ⟨HostEvent.selectSet n false :: evs, ?_⟩
      simp only [deselLoop, hstep]
      rw [hevs]
      have hmaps : (s.objects.map (fun o => if o.name = n then { o with sel := false } else o)).map (deselName rest) = s.objects.map (deselName (n :: rest)) := by
        rw [List.map_map]
        apply List.map_congr_left
        intro x _
        simp only [Function.comp]
        by_cases h1 : x.name = n
        · simp [deselName, h1]
        · by_cases h2 : x.name ∈ rest <;> simp [deselName, h1, h2]
      rw [setObjSel_as_map]
      simp only
      rw [hmaps]
      simp

theorem reselLoop_spec :
    ∀ (ns : List String) (s : HostState),
      (∀ n ∈ ns, ∀ o, dataObjectsGet s n = some o → o.in_view_layer = true) →
      ∃ evs, reselLoop ns s =
        (none, ⟨s.mode, s.objects.map (reselName ns), s.active, s.has_view_layer,
                s.events ++ evs⟩) := by
  intro ns
  induction ns with
  | nil =>
      intro s _
      refine ⟨[], ?_⟩
      rw [reselLoop]
      have h2 : ∀ o ∈ s.objects, reselName [] o = o := by
        intro o _
        simp [reselName]
      rw [List.map_congr_left h2]
      simp
  | cons n rest ih =>
      intro s hns
      cases hg : dataObjectsGet s n with
      | none =>
          obtain ⟨evs, hevs⟩ := ih s (fun m hm => hns m (by simp [hm]))
          refine ⟨evs, ?_⟩
          simp only [reselLoop, hg]
          rw [hevs]
          have hnone : ∀ x ∈ s.objects, ¬ (x.name = n) := by
            intro x hx he
            have h3 := List.find?_eq_none.mp hg x hx
            simp [he] at h3
          have hmaps : s.objects.map (reselName rest) = s.objects.map (reselName (n :: rest)) := by
            apply List.map_congr_left
            intro x hx
            have h4 := hnone x hx
            by_cases h2 : x.name ∈ rest <;> simp [reselName, h4, h2]
          rw [hmaps]
      | some o =>
          have hvl : o.in_view_layer = true := hns n (by simp) o hg
          have hstep := selectSetOp_found s n true o hg hvl
          have hns2 : ∀ m ∈ rest, ∀ o2, dataObjectsGet (setObjSel s n true) m = some o2 →
              o2.in_view_layer = true := by
            intro m hm o2 ho2
            rw [dataObjectsGet_setObjSel] at ho2
            cases hg2 : dataObjectsGet s m with
            | none => rw [hg2] at ho2; cases ho2
            | some o3 =>
                rw [hg2] at ho2
                have hvl3 := hns m (by simp [hm]) o3 hg2
                have h5 : o2 = if o3.name = n then { o3 with sel := true } else o3 := by
                  cases ho2
                  rfl
                rw [h5]
                by_cases h : o3.name = n <;> simp [h, hvl3]
          obtain ⟨evs, hevs⟩ := ih (setObjSel s n true) hns2
          refine ⟨HostEvent.selectSet n true :: evs, ?_⟩
          simp only [reselLoop, hg, hstep]
          rw [hevs]
          have hmaps : (s.objects.map (fun o => if o.name = n then { o with sel := true } else o)).map (reselName rest) = s.objects.map (reselName (n :: rest)) := by
            rw [List.map_map]
            apply List.map_congr_left
            intro x _
            simp only [Function.comp]
            by_cases h1 : x.name = n
            · simp [reselName, h1]
            · by_cases h2 : x.name ∈ rest <;> simp [reselName, h1, h2]
          rw [setObjSel_as_map]
          simp only
          rw [hmaps]
          simp

theorem deselName_vl (ns : List String) (o : ObjData) :
    (deselName ns o).in_view_layer = o.in_view_layer := by
  unfold deselName
  by_cases h : o.name ∈ ns <;> simp [h]

theorem reselName_vl (ns : List String) (o : ObjData) :
    (reselName ns o).in_view_layer = o.in_view_layer := by
  unfold reselName
  by_cases h : o.name ∈ ns <;> simp [h]

theorem name_inj_of_nodup (l : List ObjData) (hnd : (l.map (fun x => x.name)).Nodup)
    (o1 o2 : ObjData) (h1 : o1 ∈ l) (h2 : o2 ∈ l) (he : o1.name = o2.name) : o1 = o2 :=
  List.inj_on_of_nodup_map hnd h1 h2 he

theorem mem_selectedNames_iff (s : HostState)
    (hnd : (s.objects.map (fun x => x.name)).Nodup) (o : ObjData) (ho : o ∈ s.objects) :
    o.name ∈ (selectedObjects s).map (fun x => x.name) ↔
      (o.sel = true ∧ o.in_view_layer = true) := by
  constructor
  · intro h
    obtain ⟨o2, ho2, hname⟩ := List.mem_map.mp h
    have hmem : o2 ∈ s.objects := (List.mem_filter.mp ho2).1
    have hflt := (List.mem_filter.mp ho2).2
    have heq : o2 = o := name_inj_of_nodup s.objects hnd o2 o hmem ho hname
    subst heq
    simpa using hflt
  · intro ⟨hsel, hvl⟩
    exact List.mem_map.mpr ⟨o, List.mem_filter.mpr ⟨ho, by simp [hsel, hvl]⟩, rfl⟩

theorem restore_selection_spec (st : SelectionState) (s : HostState)
    (hvl : s.has_view_layer = true)
    (hns : ∀ n ∈ st.selected_names, ∀ o, dataObjectsGet s n = some o → o.in_view_layer = true)
    (hnd : (s.objects.map (fun x => x.name)).Nodup) :
    ∃ evs, restore_selection st true s =
      (none, ⟨s.mode,
        s.objects.map (fun o =>
          reselName st.selected_names (deselName ((selectedObjects s).map (fun x => x.name)) o)),
        (match st.active_name with
         | none => s.active
         | some nm => if (dataObjectsGet s nm).isSome = true then some nm else s.active),
        s.has_view_layer, s.events ++ evs⟩) := by
  have hdes : ∀ n ∈ (selectedObjects s).map (fun x => x.name),
      ∃ o, dataObjectsGet s n = some o ∧ o.in_view_layer = true := by
    intro n hn
    obtain ⟨o, ho, hname⟩ := List.mem_map.mp hn
    have hmem : o ∈ s.objects := (List.mem_filter.mp ho).1
    have hflt := (List.mem_filter.mp ho).2
    refine ⟨o, ?_, ?_⟩
    · rw [← hname]
      exact dataObjectsGet_of_mem s o hmem hnd
    · have h7 : o.sel = true ∧ o.in_view_layer = true := by simpa using hflt
      exact h7.2
  obtain ⟨evs1, hd⟩ := deselLoop_spec ((selectedObjects s).map (fun x => x.name)) s hdes
  set ns0 := (selectedObjects s).map (fun x => x.name) with hns0
  set s1 : HostState := ⟨s.mode, s.objects.map (deselName ns0), s.active, s.has_view_layer,
      s.events ++ evs1⟩ with hs1
  have hget1 : ∀ m, dataObjectsGet s1 m = (dataObjectsGet s m).map (deselName ns0) := by
    intro m
    exact dataObjectsGet_map_objects s (deselName ns0) (deselName_name ns0) m s.mode s.active
      s.has_view_layer (s.events ++ evs1)
  have hres : ∀ n ∈ st.selected_names, ∀ o, dataObjectsGet s1 n = some o →
      o.in_view_layer = true := by
    intro n hn o ho
    rw [hget1] at ho
    cases hg2 : dataObjectsGet s n with
    | none => rw [hg2] at ho; cases ho
    | some o3 =>
        rw [hg2] at ho
        have h6 : o = deselName ns0 o3 := by
          cases ho
          rfl
        rw [h6, deselName_vl]
        exact hns n hn o3 hg2
  obtain ⟨evs2, hr⟩ := reselLoop_spec st.selected_names s1 hres
  have hget2 : ∀ m, dataObjectsGet
      (⟨s1.mode, s1.objects.map (reselName st.selected_names), s1.active, s1.has_view_layer,
        s1.events ++ evs2⟩ : HostState) m =
      (dataObjectsGet s1 m).map (reselName st.selected_names) := by
    intro m
    exact dataObjectsGet_map_objects s1 (reselName st.selected_names)
      (reselName_name st.selected_names) m s1.mode s1.active s1.has_view_layer (s1.events ++ evs2)
  unfold restore_selection
  rw [if_pos hvl]
  simp only [if_pos]
  rw [← hns0, hd]
  simp only
  rw [hr]
  simp only
  cases hact : st.active_name with
  | none =>
      refine ⟨evs1 ++ evs2, ?_⟩
      simp [restoreActive, hact, hs1, List.map_map, List.append_assoc, Function.comp]
  | some nm =>
      cases hg3 : dataObjectsGet s nm with
      | none =>
          refine ⟨evs1 ++ evs2, ?_⟩
          have hg4 := hget2 nm
          rw [hget1, hg3] at hg4
          simp only [Option.map_none'] at hg4
          simp only [hs1, List.map_map, List.append_assoc, Function.comp] at hg4
          simp [restoreActive, hact, hg4, hg3, hs1, List.map_map, List.append_assoc,
            Function.comp]
      | some o =>
          refine ⟨evs1 ++ evs2 ++ [.setActive nm], ?_⟩
          have hg4 := hget2 nm
          rw [hget1, hg3] at hg4
          simp only [Option.map_some'] at hg4
          simp only [hs1, List.map_map, List.append_assoc, Function.comp] at hg4
          simp [restoreActive, hact, hg4, hg3, setActiveOp, hs1, List.map_map,
            List.append_assoc, Function.comp]

/-! ### Round trip through a preserve_selection scope -/

theorem objdata_sel_eta (o : ObjData) (b : Bool) (h : o.sel = b) :
    ({ o with sel := b } : ObjData) = o := by
  cases o
  cases h
  rfl

theorem preserve_selection_run (B : HostState → Res) (s : HostState)
    (r : Option PyErr) (md : String) (act2 : Option String)
    (F : ObjData → ObjData) (evs2 : List HostEvent)
    (hvl : s.has_view_layer = true)
    (hnd : (s.objects.map (fun x => x.name)).Nodup)
    (hFn : ∀ x, (F x).name = x.name)
    (hFv : ∀ x, (F x).in_view_layer = x.in_view_layer)
    (hFs : ∀ x ∈ s.objects, x.in_view_layer = false → (F x).sel = x.sel)
    (a : String) (hacts : s.active = some a) (haex : (dataObjectsGet s a).isSome = true)
    (hB : B s = (r, ⟨md, s.objects.map F, act2, s.has_view_layer, s.events ++ evs2⟩)) :
    ∃ evs, preserve_selection true B s =
      (r, ⟨md, s.objects.map (fun x => { F x with sel := x.sel }), s.active,
           s.has_view_layer, s.events ++ evs⟩) := by
  have hcap : capture_selection s =
      .ok ⟨s.active, (selectedObjects s).map (fun x => x.name)⟩ := by
    unfold capture_selection
    rw [if_pos hvl]
  have hnd3 : ((s.objects.map F).map (fun x => x.name)).Nodup := by
    rw [List.map_map]
    have he : ((fun x : ObjData => x.name) ∘ F) = fun x : ObjData => x.name :=
      funext fun x => hFn x
    rw [he]
    exact hnd
  have hget3 : ∀ m, dataObjectsGet
      (⟨md, s.objects.map F, act2, s.has_view_layer, s.events ++ evs2⟩ : HostState) m =
      (dataObjectsGet s m).map F := by
    intro m
    exact dataObjectsGet_map_objects s F hFn m md act2 s.has_view_layer (s.events ++ evs2)
  have hns3 : ∀ n ∈ (selectedObjects s).map (fun x => x.name), ∀ o2,
      dataObjectsGet (⟨md, s.objects.map F, act2, s.has_view_layer,
        s.events ++ evs2⟩ : HostState) n = some o2 → o2.in_view_layer = true := by
    intro n hn o2 ho2
    rw [hget3] at ho2
    obtain ⟨ox, hox, hname⟩ := List.mem_map.mp hn
    have hmem : ox ∈ s.objects := (List.mem_filter.mp hox).1
    have hflt := (List.mem_filter.mp hox).2
    have hvlx : ox.in_view_layer = true := by
      have h7 : ox.sel = true ∧ ox.in_view_layer = true := by simpa using hflt
      exact h7.2
    have hgx : dataObjectsGet s n = some ox := by
      rw [← hname]
      exact dataObjectsGet_of_mem s ox hmem hnd
    rw [hgx] at ho2
    have h8 : o2 = F ox := by
      cases ho2
      rfl
    rw [h8, hFv, hvlx]
  obtain ⟨evs3, hrs⟩ := restore_selection_spec
    ⟨s.active, (selectedObjects s).map (fun x => x.name)⟩
    (⟨md, s.objects.map F, act2, s.has_view_layer, s.events ++ evs2⟩ : HostState)
    hvl hns3 hnd3
  unfold preserve_selection
  rw [hcap]
  simp only
  rw [hB]
  simp only
  rw [hrs]
  simp only [Option.none_orElse]
  refine ⟨evs2 ++ evs3, ?_⟩
  have hobjs : (s.objects.map F).map
      (fun o => reselName ((selectedObjects s).map (fun x => x.name))
        (deselName ((selectedObjects
          (⟨md, s.objects.map F, act2, s.has_view_layer,
            s.events ++ evs2⟩ : HostState)).map (fun x => x.name)) o)) =
      s.objects.map (fun x => { F x with sel := x.sel }) := by
    rw [List.map_map]
    apply List.map_congr_left
    intro x hx
    simp only [Function.comp]
    have hmem3 : F x ∈ s.objects.map F := List.mem_map.mpr ⟨x, hx, rfl⟩
    have hns1 : (F x).name ∈ (selectedObjects
        (⟨md, s.objects.map F, act2, s.has_view_layer,
          s.events ++ evs2⟩ : HostState)).map (fun y => y.name) ↔
        ((F x).sel = true ∧ (F x).in_view_layer = true) :=
      mem_selectedNames_iff _ hnd3 (F x) hmem3
    have hns0 : x.name ∈ (selectedObjects s).map (fun y => y.name) ↔
        (x.sel = true ∧ x.in_view_layer = true) :=
      mem_selectedNames_iff s hnd x hx
    by_cases hxvl : x.in_view_layer = true
    · by_cases hFxs : (F x).sel = true
      · have h1 : (F x).name ∈ (selectedObjects
            (⟨md, s.objects.map F, act2, s.has_view_layer,
              s.events ++ evs2⟩ : HostState)).map (fun y => y.name) :=
          hns1.mpr ⟨hFxs, by rw [hFv, hxvl]⟩
        unfold deselName
        rw [if_pos h1]
        unfold reselName
        by_cases hxs : x.sel = true
        · have h2 : ({ F x with sel := false } : ObjData).name ∈
              (selectedObjects s).map (fun y => y.name) := by
            show (F x).name ∈ _
            rw [hFn]
            exact hns0.mpr ⟨hxs, hxvl⟩
          rw [if_pos h2, hxs]
        · have h2 : ({ F x with sel := false } : ObjData).name ∉
              (selectedObjects s).map (fun y => y.name) := by
            show ¬ ((F x).name ∈ _)
            rw [hFn]
            intro hc
            exact hxs (hns0.mp hc).1
          rw [if_neg h2]
          have hxsf : x.sel = false := by
            cases hb : x.sel
            · rfl
            · exact absurd hb hxs
          rw [hxsf]
      · have h1 : (F x).name ∉ (selectedObjects
            (⟨md, s.objects.map F, act2, s.has_view_layer,
              s.events ++ evs2⟩ : HostState)).map (fun y => y.name) := by
          intro hc
          exact hFxs (hns1.mp hc).1
        unfold deselName
        rw [if_neg h1]
        unfold reselName
        by_cases hxs : x.sel = true
        · have h2 : (F x).name ∈ (selectedObjects s).map (fun y => y.name) := by
            rw [hFn]
            exact hns0.mpr ⟨hxs, hxvl⟩
          rw [if_pos h2, hxs]
        · have h2 : (F x).name ∉ (selectedObjects s).map (fun y => y.name) := by
            rw [hFn]
            intro hc
            exact hxs (hns0.mp hc).1
          rw [if_neg h2]
          have hxsf : x.sel = false := by
            cases hb : x.sel
            · rfl
            · exact absurd hb hxs
          have hFxsf : (F x).sel = false := by
            cases hb : (F x).sel
            · rfl
            · exact absurd hb hFxs
          rw [hxsf]
          exact (objdata_sel_eta (F x) false hFxsf).symm
    · have hxvlf : x.in_view_layer = false := by
        cases hb : x.in_view_layer
        · rfl
        · exact absurd hb hxvl
      have h1 : (F x).name ∉ (selectedObjects
          (⟨md, s.objects.map F, act2, s.has_view_layer,
            s.events ++ evs2⟩ : HostState)).map (fun y => y.name) := by
        intro hc
        have := (hns1.mp hc).2
        rw [hFv, hxvlf] at this
        cases this
      have h2 : (F x).name ∉ (selectedObjects s).map (fun y => y.name) := by
        rw [hFn]
        intro hc
        have := (hns0.mp hc).2
        rw [hxvlf] at this
        cases this
      unfold deselName
      rw [if_neg h1]
      unfold reselName
      rw [if_neg h2]
      have hsx := hFs x hx hxvlf
      exact (objdata_sel_eta (F x) x.sel (by rw [hsx])).symm
  have hactf : (match (⟨s.active, (selectedObjects s).map (fun x => x.name)⟩ :
      SelectionState).active_name with
      | none => act2
      | some nm => if (dataObjectsGet (⟨md, s.objects.map F, act2, s.has_view_layer,
          s.events ++ evs2⟩ : HostState) nm).isSome = true then some nm else act2) =
      s.active := by
    simp only [hacts]
    rw [hget3]
    cases hg : dataObjectsGet s a with
    | none => rw [hg] at haex; cases haex
    | some oa => simp
  simp only at hobjs hactf
  rw [hobjs, hactf]
  simp

theorem objdata_sel_upd_upd (o : ObjData) (b c : Bool) :
    ({ ({ o with sel := b } : ObjData) with sel := c } : ObjData) = { o with sel := c } := rfl

theorem find?_name_eq (s : HostState) (nm : String) (o : ObjData)
    (ho : dataObjectsGet s nm = some o) : o.name = nm := by
  have := List.find?_some ho
  simpa using this

theorem mem_of_dataObjectsGet (s : HostState) (nm : String) (o : ObjData)
    (ho : dataObjectsGet s nm = some o) : o ∈ s.objects :=
  List.mem_of_find?_eq_some ho

theorem set_active_run (nm : String) (B : HostState → Res) (s : HostState)
    (o : ObjData) (ho : dataObjectsGet s nm = some o) (hvlo : o.in_view_layer = true)
    (hvl : s.has_view_layer = true)
    (hnd : (s.objects.map (fun x => x.name)).Nodup)
    (f : ObjData → ObjData) (r : Option PyErr) (md : String) (act2 : Option String)
    (evsB : List HostEvent)
    (hfn : ∀ x, (f x).name = x.name) (hfv : ∀ x, (f x).in_view_layer = x.in_view_layer)
    (hfs : ∀ x, (f x).sel = x.sel)
    (hfc : ∀ x b, f { x with sel := b } = { f x with sel := b })
    (a : String) (hacts : s.active = some a) (haex : (dataObjectsGet s a).isSome = true)
    (hB : B (setActiveOp (setObjSel s nm true) nm) =
      (r, ⟨md, (setActiveOp (setObjSel s nm true) nm).objects.map f, act2, s.has_view_layer,
           (setActiveOp (setObjSel s nm true) nm).events ++ evsB⟩)) :
    ∃ evs, set_active (some nm) true B s =
      (r, ⟨md, s.objects.map f, s.active, s.has_view_layer, s.events ++ evs⟩) := by
  have hstep := selectSetOp_found s nm true o ho hvlo
  have hinner : set_active_body nm true B s =
      (r, ⟨md, s.objects.map (fun x => f (if x.name = nm then { x with sel := true } else x)),
           act2, s.has_view_layer,
           s.events ++ ([.selectSet nm true, .setActive nm] ++ evsB)⟩) := by
    unfold set_active_body
    simp only [if_pos, hstep]
    have hvl1 : (setObjSel s nm true).has_view_layer = true := hvl
    rw [if_pos hvl1, hB]
    rw [setObjSel_as_map]
    unfold setActiveOp
    simp only [List.map_map, List.append_assoc]
    rfl
  have hrun := preserve_selection_run (set_active_body nm true B) s r md act2
    (fun x => f (if x.name = nm then { x with sel := true } else x))
    ([.selectSet nm true, .setActive nm] ++ evsB) hvl hnd
    (fun x => by by_cases h : x.name = nm <;> simp [h, hfn])
    (fun x => by by_cases h : x.name = nm <;> simp [h, hfv])
    (fun x hx hxvl => by
      have hxn : ¬ (x.name = nm) := by
        intro he
        have hgx : dataObjectsGet s nm = some x := by
          rw [← he]
          exact dataObjectsGet_of_mem s x hx hnd
        rw [ho] at hgx
        have h9 : o = x := by cases hgx; rfl
        rw [← h9] at hxvl
        rw [hvlo] at hxvl
        cases hxvl
      simp [hxn, hfs])
    a hacts haex hinner
  obtain ⟨evs, hres⟩ := hrun
  refine ⟨evs, ?_⟩
  unfold set_active
  simp only
  have hcollapse : s.objects.map (fun x =>
      { f (if x.name = nm then { x with sel := true } else x) with sel := x.sel }) =
      s.objects.map f := by
    apply List.map_congr_left
    intro x _
    by_cases h : x.name = nm
    · rw [if_pos h, hfc, objdata_sel_upd_upd]
      exact objdata_sel_eta (f x) x.sel (hfs x)
    · rw [if_neg h]
      exact objdata_sel_eta (f x) x.sel (hfs x)
  rw [hcollapse] at hres
  exact hres

/-! ### Characterization of the guarded session run -/

theorem move_vertices_run (nm : String) (dir : Vec3) (dist : ℝ) (space : String)
    (idx : Option (List Nat)) (s1 : HostState) (o1 : ObjData)
    (hg : dataObjectsGet s1 nm = some o1) :
    MeshSession.move_vertices nm dir dist space idx s1 =
      ((move_vertices_core o1.matrix_world dir dist space idx o1.verts).1,
       updateVerts s1 nm (move_vertices_core o1.matrix_world dir dist space idx o1.verts).2) := by
  unfold MeshSession.move_vertices
  rw [hg]

theorem sA_literal (s : HostState) (nm : String) :
    setActiveOp (setObjSel s nm true) nm =
      ⟨s.mode, s.objects.map (fun x => if x.name = nm then { x with sel := true } else x),
       some nm, s.has_view_layer,
       (s.events ++ [.selectSet nm true]) ++ [.setActive nm]⟩ := rfl

theorem modeRestore_not_object (prev : String) (h : ¬ (prev = "OBJECT")) (st : HostState) :
    modeRestore prev st = st := by
  unfold modeRestore
  rw [if_neg h]

theorem modeScope_edit_run (nm : String) (W : HostState → Res) (s : HostState) (o : ObjData)
    (ho : dataObjectsGet s nm = some o) (htyp : o.typ = "MESH")
    (hvlo : o.in_view_layer = true) (hvl : s.has_view_layer = true)
    (hnd : (s.objects.map (fun x => x.name)).Nodup)
    (a : String) (hacts : s.active = some a) (haex : (dataObjectsGet s a).isSome = true)
    (hmode : s.mode = "OBJECT" ∨ s.mode = "EDIT_MESH")
    (rW : Option PyErr) (f : ObjData → ObjData) (evW : List HostEvent)
    (hfn : ∀ x, (f x).name = x.name) (hfv : ∀ x, (f x).in_view_layer = x.in_view_layer)
    (hfs : ∀ x, (f x).sel = x.sel)
    (hfc : ∀ x b, f ({ x with sel := b } : ObjData) = { f x with sel := b })
    (hW : ∀ s1 : HostState, s1.mode = "EDIT_MESH" →
      dataObjectsGet s1 nm = some ({ o with sel := true } : ObjData) →
      W s1 = (rW, ⟨s1.mode, s1.objects.map f, s1.active, s1.has_view_layer,
                   s1.events ++ evW⟩)) :
    ∃ evs, modeScope (some nm) "EDIT" W s =
      (rW, ⟨s.mode, s.objects.map f, s.active, s.has_view_layer, s.events ++ evs⟩) := by
  have honm : o.name = nm := find?_name_eq s nm o ho
  have hgetE : ∀ (md2 : String) (a2 : Option String) (evs2 : List HostEvent),
      dataObjectsGet (⟨md2, s.objects.map
          (fun x => if x.name = nm then { x with sel := true } else x),
        a2, s.has_view_layer, evs2⟩ : HostState) nm =
      some ({ o with sel := true } : ObjData) := by
    intro md2 a2 evs2
    rw [dataObjectsGet_map_objects s (fun x => if x.name = nm then { x with sel := true } else x)
      (fun x => by by_cases h : x.name = nm <;> simp [h]) nm md2 a2 s.has_view_layer evs2]
    rw [ho]
    simp [honm]
  have hpy : pyUpper "EDIT" = "EDIT" := by decide
  have hB : modeScope_body (pyUpper "EDIT") s.mode W
      (setActiveOp (setObjSel s nm true) nm) =
      (rW, ⟨s.mode, (setActiveOp (setObjSel s nm true) nm).objects.map f, some nm,
             s.has_view_layer,
             (setActiveOp (setObjSel s nm true) nm).events ++
               (if s.mode = "OBJECT" then
                 ([.modeSet "EDIT"] ++ evW ++ [.modeSet "OBJECT"] : List HostEvent)
                else evW)⟩) := by
    rw [sA_literal, hpy]
    unfold modeScope_body modeSwitchAndBody
    rw [if_neg (by decide : ¬ (("EDIT" : String) = "OBJECT")), if_pos rfl]
    rcases hmode with hm | hm
    · rw [hm, if_pos rfl]
      have hem : _is_edit_mode (⟨"OBJECT",
          s.objects.map (fun x => if x.name = nm then { x with sel := true } else x),
          some nm, s.has_view_layer,
          (s.events ++ [HostEvent.selectSet nm true]) ++ [HostEvent.setActive nm]⟩ :
            HostState) = false := by
        show pyStartsWith "OBJECT" "EDIT" = false
        decide
      rw [hem]
      simp only [Bool.false_eq_true, if_false]
      have hstr : ("EDIT_" ++ "MESH" : String) = "EDIT_MESH" := by decide
      have hmf : modeSetOp (⟨"OBJECT",
          s.objects.map (fun x => if x.name = nm then { x with sel := true } else x),
          some nm, s.has_view_layer,
          (s.events ++ [HostEvent.selectSet nm true]) ++ [HostEvent.setActive nm]⟩ :
            HostState) "EDIT" =
          ⟨"EDIT_MESH",
           s.objects.map (fun x => if x.name = nm then { x with sel := true } else x),
           some nm, s.has_view_layer,
           ((s.events ++ [HostEvent.selectSet nm true]) ++ [HostEvent.setActive nm]) ++
             [HostEvent.modeSet "EDIT"]⟩ := by
        unfold modeSetOp hostModeFor
        simp only [if_pos rfl]
        rw [hgetE "OBJECT" (some nm)
          ((s.events ++ [HostEvent.selectSet nm true]) ++ [HostEvent.setActive nm])]
        simp only [htyp, hstr, if_true]
      rw [hmf]
      rw [hW _ rfl (hgetE "EDIT_MESH" (some nm) _)]
      have hmr : modeRestore "OBJECT" (⟨"EDIT_MESH",
          (s.objects.map (fun x => if x.name = nm then { x with sel := true } else x)).map f,
          some nm, s.has_view_layer,
          (((s.events ++ [HostEvent.selectSet nm true]) ++ [HostEvent.setActive nm]) ++
            [HostEvent.modeSet "EDIT"]) ++ evW⟩ : HostState) =
          ⟨"OBJECT",
           (s.objects.map (fun x => if x.name = nm then { x with sel := true } else x)).map f,
           some nm, s.has_view_layer,
           ((((s.events ++ [HostEvent.selectSet nm true]) ++ [HostEvent.setActive nm]) ++
             [HostEvent.modeSet "EDIT"]) ++ evW) ++ [HostEvent.modeSet "OBJECT"]⟩ := by
        unfold modeRestore _is_object_mode modeSetOp hostModeFor
        simp +decide
      rw [hmr]
      simp [List.append_assoc]
    · rw [hm, if_neg (by decide : ¬ (("EDIT_MESH" : String) = "OBJECT"))]
      have hem : _is_edit_mode (⟨"EDIT_MESH",
          s.objects.map (fun x => if x.name = nm then { x with sel := true } else x),
          some nm, s.has_view_layer,
          (s.events ++ [HostEvent.selectSet nm true]) ++ [HostEvent.setActive nm]⟩ :
            HostState) = true := by
        show pyStartsWith "EDIT_MESH" "EDIT" = true
        decide
      rw [hem]
      simp only [if_true]
      rw [hW _ rfl (hgetE "EDIT_MESH" (some nm) _)]
      rw [modeRestore_not_object "EDIT_MESH" (by decide)]
  obtain ⟨evs, hfin⟩ := set_active_run nm (modeScope_body (pyUpper "EDIT") s.mode W)
    s o ho hvlo hvl hnd f rW s.mode (some nm)
    (if s.mode = "OBJECT" then
      ([.modeSet "EDIT"] ++ evW ++ [.modeSet "OBJECT"] : List HostEvent)
     else evW)
    hfn hfv hfs hfc a hacts haex hB
  refine ⟨evs, ?_⟩
  unfold modeScope
  simp only
  rw [hfin]

theorem sessionMove_spec (nm : String) (dir : Vec3) (dist : ℝ) (space : String)
    (idx : Option (List Nat)) (s : HostState) (o : ObjData)
    (ho : dataObjectsGet s nm = some o) (htyp : o.typ = "MESH")
    (hvlo : o.in_view_layer = true) (hvl : s.has_view_layer = true)
    (hnd : (s.objects.map (fun x => x.name)).Nodup)
    (a : String) (hacts : s.active = some a) (haex : (dataObjectsGet s a).isSome = true)
    (hmode : s.mode = "OBJECT" ∨ s.mode = "EDIT_MESH") :
    ∃ evs, sessionMove (some nm) dir dist space idx s =
      ((move_vertices_core o.matrix_world dir dist space idx o.verts).1,
       ⟨s.mode, s.objects.map (fun y => if y.name = nm then
           { y with verts := (move_vertices_core o.matrix_world dir dist space idx o.verts).2 }
         else y),
        s.active, s.has_view_layer, s.events ++ evs⟩) := by
  have hval : meshSessionValidate s (some nm) = none := by
    simp only [meshSessionValidate]
    rw [ho]
    simp [htyp]
  set c := move_vertices_core o.matrix_world dir dist space idx o.verts with hc
  set vupd : ObjData → ObjData :=
    (fun y => if y.name = nm then { y with verts := c.2 } else y) with hvupd
  have hfn : ∀ x, (vupd x).name = x.name := by
    intro x
    rw [hvupd]
    by_cases h : x.name = nm <;> simp [h]
  have hfv : ∀ x, (vupd x).in_view_layer = x.in_view_layer := by
    intro x
    rw [hvupd]
    by_cases h : x.name = nm <;> simp [h]
  have hfs : ∀ x, (vupd x).sel = x.sel := by
    intro x
    rw [hvupd]
    by_cases h : x.name = nm <;> simp [h]
  have hfc : ∀ x b, vupd ({ x with sel := b } : ObjData) = { vupd x with sel := b } := by
    intro x b
    rw [hvupd]
    by_cases h : x.name = nm <;> simp [h]
  have hW : ∀ s1 : HostState, s1.mode = "EDIT_MESH" →
      dataObjectsGet s1 nm = some ({ o with sel := true } : ObjData) →
      (if s1.mode = "EDIT_MESH" then
        ((MeshSession.move_vertices nm dir dist space idx s1).1,
         { (MeshSession.move_vertices nm dir dist space idx s1).2 with
            events := (MeshSession.move_vertices nm dir dist space idx s1).2.events ++
              [.meshUpdate nm] })
      else ((some (.runtimeError "from_edit_mesh outside mesh edit mode") : Option PyErr), s1)) =
      (c.1, ⟨s1.mode, s1.objects.map vupd, s1.active, s1.has_view_layer,
             s1.events ++ [.meshUpdate nm]⟩) := by
    intro s1 hm1 hg1
    rw [if_pos hm1]
    rw [move_vertices_run nm dir dist space idx s1 _ hg1]
    simp only
    unfold updateVerts
    rw [hvupd, hc]
  obtain ⟨evs, hrun⟩ := modeScope_edit_run nm
    (fun s1 =>
      if s1.mode = "EDIT_MESH" then
        ((MeshSession.move_vertices nm dir dist space idx s1).1,
         { (MeshSession.move_vertices nm dir dist space idx s1).2 with
            events := (MeshSession.move_vertices nm dir dist space idx s1).2.events ++
              [.meshUpdate nm] })
      else ((some (.runtimeError "from_edit_mesh outside mesh edit mode") : Option PyErr), s1))
    s o ho htyp hvlo hvl hnd a hacts haex hmode c.1 vupd [.meshUpdate nm]
    hfn hfv hfs hfc hW
  refine ⟨evs, ?_⟩
  unfold sessionMove meshSessionScope
  rw [hval]
  simp only
  unfold edit_mode
  rw [hrun]

/-! ### Characterization of the direct-buffer path -/

theorem move_mesh_fast_cases (objName : Option String) (dir : Vec3) (dist : ℝ)
    (space : String) (idx : Option (List Nat)) (s : HostState) :
    ((move_mesh_fast objName dir dist space idx s).2 = s) ∨
    (∃ nm cos, objName = some nm ∧
      move_mesh_fast objName dir dist space idx s =
        (none, { updateVerts s nm cos with
                  events := s.events ++ [.bufferWrite nm, .meshUpdate nm] })) := by
  unfold move_mesh_fast
  cases objName with
  | none => left; rfl
  | some nm =>
      simp only []
      cases hg : dataObjectsGet s nm with
      | none => left; rfl
      | some o =>
          simp only []
          by_cases h1 : o.typ ≠ "MESH"
          · rw [if_pos h1]; left; rfl
          · rw [if_neg h1]
            by_cases h2 : s.mode = "EDIT_MESH"
            · rw [if_pos h2]; left; rfl
            · rw [if_neg h2]
              by_cases h3 : dist = 0
              · rw [if_pos h3]; left; rfl
              · rw [if_neg h3]
                by_cases h4 : dir.length = 0
                · rw [if_pos h4]; left; rfl
                · rw [if_neg h4]
                  by_cases h5 : pyUpper space = "WORLD"
                  · rw [if_pos h5]
                    cases idx with
                    | none => right; exact ⟨nm, _, rfl, rfl⟩
                    | some l =>
                        simp only []
                        cases hfa : fastApplyIdx
                            (mat3MulVec (to_3x3 (inverted_safe o.matrix_world))
                              (dist • dir.normalized)) l o.verts with
                        | error e => left; rfl
                        | ok cos => right; exact ⟨nm, cos, rfl, rfl⟩
                  · rw [if_neg h5]
                    by_cases h6 : pyUpper space = "LOCAL"
                    · rw [if_pos h6]
                      cases idx with
                      | none => right; exact ⟨nm, _, rfl, rfl⟩
                      | some l =>
                          simp only []
                          cases hfa : fastApplyIdx (dist • dir.normalized) l o.verts with
                          | error e => left; rfl
                          | ok cos => right; exact ⟨nm, cos, rfl, rfl⟩
                    · rw [if_neg h6]; left; rfl

theorem selView_map (s : HostState) (f : ObjData → ObjData)
    (hfn : ∀ x, (f x).name = x.name) (hfs : ∀ x, (f x).sel = x.sel)
    (md : String) (a : Option String) (vl : Bool) (evs : List HostEvent) :
    selView (⟨md, s.objects.map f, a, vl, evs⟩ : HostState) = selView s := by
  unfold selView
  simp only [List.map_map]
  apply List.map_congr_left
  intro x _
  simp [Function.comp, hfn, hfs]

/-- The direct-buffer path never issues a mode, selection, or active-object
host call and never changes mode, selection flags, or the active object:
its only writes are the vertex buffer write and the mesh-update signal. -/
theorem move_mesh_fast_preserves (objName : Option String) (dir : Vec3) (dist : ℝ)
    (space : String) (idx : Option (List Nat)) (s : HostState) :
    (move_mesh_fast objName dir dist space idx s).2.mode = s.mode ∧
    (move_mesh_fast objName dir dist space idx s).2.active = s.active ∧
    selView (move_mesh_fast objName dir dist space idx s).2 = selView s ∧
    ((move_mesh_fast objName dir dist space idx s).2.events = s.events ∨
      ∃ nm, objName = some nm ∧
        (move_mesh_fast objName dir dist space idx s).2.events =
          s.events ++ [.bufferWrite nm, .meshUpdate nm]) := by
  rcases move_mesh_fast_cases objName dir dist space idx s with h | ⟨nm, cos, hob, h⟩
  · rw [h]
    exact ⟨rfl, rfl, rfl, Or.inl rfl⟩
  · rw [h]
    refine ⟨rfl, rfl, ?_, Or.inr ⟨nm, hob, rfl⟩⟩
    show selView (⟨s.mode, s.objects.map (fun o =>
        if o.name = nm then { o with verts := cos } else o), s.active, s.has_view_layer,
        s.events ++ [.bufferWrite nm, .meshUpdate nm]⟩ : HostState) = selView s
    apply selView_map
    · intro x
      by_cases hx : x.name = nm <;> simp [hx]
    · intro x
      by_cases hx : x.name = nm <;> simp [hx]

theorem vertsOf_state_map (s : HostState) (nm : String) (o : ObjData)
    (ho : dataObjectsGet s nm = some o) (f : ObjData → ObjData)
    (hf : ∀ x, (f x).name = x.name) (md : String) (a : Option String) (vl : Bool)
    (evs : List HostEvent) :
    vertsOf (⟨md, s.objects.map f, a, vl, evs⟩ : HostState) nm = some (f o).verts := by
  unfold vertsOf
  rw [dataObjectsGet_map_objects s f hf nm md a vl evs, ho]
  rfl

/-- The direct-buffer path computes exactly the vertex buffer the shared
per-vertex core computes, and raises exactly when the core raises, as long
as an explicitly supplied index list is an in-bounds subset (numpy applies
the delta once per distinct index, the sequential loop once per
occurrence; both agree under those conditions). -/
theorem move_mesh_fast_verts (nm : String) (dir : Vec3) (dist : ℝ) (space : String)
    (idx : Option (List Nat)) (s : HostState) (o : ObjData)
    (ho : dataObjectsGet s nm = some o) (htyp : o.typ = "MESH")
    (hmode : ¬ (s.mode = "EDIT_MESH"))
    (hidx : ∀ l, idx = some l → ((∀ i ∈ l, i < o.verts.length) ∧ l.Nodup)) :
    vertsOf (move_mesh_fast (some nm) dir dist space idx s).2 nm =
      some (move_vertices_core o.matrix_world dir dist space idx o.verts).2 ∧
    (move_mesh_fast (some nm) dir dist space idx s).1 =
      (move_vertices_core o.matrix_world dir dist space idx o.verts).1 := by
  unfold move_mesh_fast move_vertices_core
  simp only []
  simp only [ho]
  rw [if_neg (by simp [htyp] : ¬ (o.typ ≠ "MESH"))]
  rw [if_neg hmode]
  by_cases h3 : dist = 0
  · rw [if_pos h3, if_pos h3]
    exact ⟨by unfold vertsOf; rw [ho]; rfl, rfl⟩
  · rw [if_neg h3, if_neg h3]
    by_cases h4 : dir.length = 0
    · rw [if_pos h4, if_pos h4]
      exact ⟨by unfold vertsOf; rw [ho]; rfl, rfl⟩
    · rw [if_neg h4, if_neg h4]
      by_cases h5 : pyUpper space = "WORLD"
      · rw [if_pos h5, if_pos h5]
        cases idx with
        | none =>
            constructor
            · rw [show ({ updateVerts s nm (o.verts.map (fun c =>
                  c + mat3MulVec (to_3x3 (inverted_safe o.matrix_world))
                    (dist • dir.normalized))) with
                  events := s.events ++ [HostEvent.bufferWrite nm, HostEvent.meshUpdate nm] } :
                    HostState) =
                  ⟨s.mode, s.objects.map (fun y => if y.name = nm then
                    { y with verts := o.verts.map (fun c =>
                      c + mat3MulVec (to_3x3 (inverted_safe o.matrix_world))
                        (dist • dir.normalized)) } else y), s.active, s.has_view_layer,
                   s.events ++ [HostEvent.bufferWrite nm, HostEvent.meshUpdate nm]⟩ from rfl]
              rw [vertsOf_state_map s nm o ho _
                (fun x => by by_cases hx : x.name = nm <;> simp [hx])]
              have honm : o.name = nm := find?_name_eq s nm o ho
              simp [honm]
            · rfl
        | some l =>
            obtain ⟨hbd, hnd⟩ := hidx l rfl
            simp only []
            have hfa : fastApplyIdx (mat3MulVec (to_3x3 (inverted_safe o.matrix_world))
                (dist • dir.normalized)) l o.verts =
                .ok (addMem (mat3MulVec (to_3x3 (inverted_safe o.matrix_world))
                  (dist • dir.normalized)) l o.verts 0) := by
              unfold fastApplyIdx
              rw [if_pos]
              simp only [List.all_eq_true, decide_eq_true_eq]
              exact hbd
            rw [hfa]
            rw [loopIdx_bounds_ok _ l o.verts hbd hnd]
            constructor
            · show vertsOf (⟨s.mode, s.objects.map (fun y => if y.name = nm then
                  { y with verts := addMem (mat3MulVec (to_3x3
                    (inverted_safe o.matrix_world)) (dist • dir.normalized)) l o.verts 0 }
                  else y), s.active, s.has_view_layer,
                 s.events ++ [HostEvent.bufferWrite nm, HostEvent.meshUpdate nm]⟩ : HostState)
                 nm = some (addMem (mat3MulVec (to_3x3
                    (inverted_safe o.matrix_world)) (dist • dir.normalized)) l o.verts 0)
              rw [vertsOf_state_map s nm o ho
                (fun y => if y.name = nm then
                  { y with verts := addMem (mat3MulVec (to_3x3
                    (inverted_safe o.matrix_world)) (dist • dir.normalized)) l o.verts 0 }
                  else y)
                (fun x => by by_cases hx : x.name = nm <;> simp [hx])]
              have honm : o.name = nm := find?_name_eq s nm o ho
              simp [honm]
            · rfl
      · rw [if_neg h5, if_neg h5]
        by_cases h6 : pyUpper space = "LOCAL"
        · rw [if_pos h6, if_pos h6]
          cases idx with
          | none =>
              constructor
              · rw [show ({ updateVerts s nm (o.verts.map (fun c =>
                    c + dist • dir.normalized)) with
                    events := s.events ++ [HostEvent.bufferWrite nm, HostEvent.meshUpdate nm] } :
                      HostState) =
                    ⟨s.mode, s.objects.map (fun y => if y.name = nm then
                      { y with verts := o.verts.map (fun c => c + dist • dir.normalized) }
                      else y), s.active, s.has_view_layer,
                     s.events ++ [HostEvent.bufferWrite nm, HostEvent.meshUpdate nm]⟩ from rfl]
                rw [vertsOf_state_map s nm o ho _
                  (fun x => by by_cases hx : x.name = nm <;> simp [hx])]
                have honm : o.name = nm := find?_name_eq s nm o ho
                simp [honm]
              · rfl
          | some l =>
              obtain ⟨hbd, hnd⟩ := hidx l rfl
              simp only []
              have hfa : fastApplyIdx (dist • dir.normalized) l o.verts =
                  .ok (addMem (dist • dir.normalized) l o.verts 0) := by
                unfold fastApplyIdx
                rw [if_pos]
                simp only [List.all_eq_true, decide_eq_true_eq]
                exact hbd
              rw [hfa]
              rw [loopIdx_bounds_ok _ l o.verts hbd hnd]
              constructor
              · show vertsOf (⟨s.mode, s.objects.map (fun y => if y.name = nm then
                    { y with verts := addMem (dist • dir.normalized) l o.verts 0 }
                    else y), s.active, s.has_view_layer,
                   s.events ++ [HostEvent.bufferWrite nm, HostEvent.meshUpdate nm]⟩ : HostState)
                   nm = some (addMem (dist • dir.normalized) l o.verts 0)
                rw [vertsOf_state_map s nm o ho
                  (fun y => if y.name = nm then
                    { y with verts := addMem (dist • dir.normalized) l o.verts 0 }
                    else y)
                  (fun x => by by_cases hx : x.name = nm <;> simp [hx])]
                have honm : o.name = nm := find?_name_eq s nm o ho
                simp [honm]
              · rfl
        · rw [if_neg h6, if_neg h6]
          exact ⟨by unfold vertsOf; rw [ho]; rfl, rfl⟩

theorem vertsOf_updateVerts (s : HostState) (nm : String) (o : ObjData)
    (ho : dataObjectsGet s nm = some o) (X : List Vec3) :
    vertsOf (updateVerts s nm X) nm = some X := by
  show vertsOf (⟨s.mode, s.objects.map (fun o2 =>
      if o2.name = nm then { o2 with verts := X } else o2), s.active, s.has_view_layer,
    s.events⟩ : HostState) nm = some X
  rw [vertsOf_state_map s nm o ho
    (fun o2 => if o2.name = nm then { o2 with verts := X } else o2)
    (fun x => by by_cases hx : x.name = nm <;> simp [hx])]
  simp [find?_name_eq s nm o ho]

/-- C7: with the host not in edit mode (the Object state of the spec state
machine), on a mesh object in the view layer, the direct-buffer strategy
and the topological strategy (session with switch_to_edit, then
move_vertices) produce identical resulting vertex buffers and identical
outcomes, for all vertices or any in-bounds duplicate-free index subset.
In the real-number idealization of floats the buffers are exactly equal. -/
theorem C7_backend_equivalence (nm : String) (dir : Vec3) (dist : ℝ) (space : String)
    (idx : Option (List Nat)) (s : HostState) (o : ObjData)
    (ho : dataObjectsGet s nm = some o) (htyp : o.typ = "MESH")
    (hvlo : o.in_view_layer = true) (hvl : s.has_view_layer = true)
    (hnd : (s.objects.map (fun x => x.name)).Nodup)
    (a : String) (hacts : s.active = some a) (haex : (dataObjectsGet s a).isSome = true)
    (hmode : s.mode = "OBJECT")
    (hidx : ∀ l, idx = some l → ((∀ i ∈ l, i < o.verts.length) ∧ l.Nodup)) :
    vertsOf (move_mesh_fast (some nm) dir dist space idx s).2 nm =
      vertsOf (sessionMove (some nm) dir dist space idx s).2 nm ∧
    (move_mesh_fast (some nm) dir dist space idx s).1 =
      (sessionMove (some nm) dir dist space idx s).1 := by
  obtain ⟨evs, hs⟩ := sessionMove_spec nm dir dist space idx s o ho htyp hvlo hvl hnd
    a hacts haex (Or.inl hmode)
  obtain ⟨hv, he⟩ := move_mesh_fast_verts nm dir dist space idx s o ho htyp
    (by rw [hmode]; decide) hidx
  rw [hs, hv, he]
  refine ⟨?_, rfl⟩
  rw [vertsOf_state_map s nm o ho
    (fun y => if y.name = nm then
      { y with verts := (move_vertices_core o.matrix_world dir dist space idx o.verts).2 }
     else y)
    (fun x => by by_cases hx : x.name = nm <;> simp [hx])]
  simp [find?_name_eq s nm o ho]

theorem C7_backend_equivalence_witness :
    vertsOf (move_mesh_fast (some "Cube") ⟨0, 0, 1⟩ 1 "LOCAL" none sObj).2 "Cube" =
      vertsOf (sessionMove (some "Cube") ⟨0, 0, 1⟩ 1 "LOCAL" none sObj).2 "Cube" ∧
    (move_mesh_fast (some "Cube") ⟨0, 0, 1⟩ 1 "LOCAL" none sObj).1 =
      (sessionMove (some "Cube") ⟨0, 0, 1⟩ 1 "LOCAL" none sObj).1 :=
  C7_backend_equivalence "Cube" ⟨0, 0, 1⟩ 1 "LOCAL" none sObj
    (cubeScene 1 [⟨0, 0, 0⟩] false) rfl rfl rfl rfl (by decide) "Cube" rfl (by decide) rfl
    (fun l h => by cases h)

/-- C2 amended: the direct-buffer path is atomic: whenever it raises, the
host state is exactly the input state.  The session path never partially
applies a delta on an in-bounds duplicate-free explicit index list: it
raises no IndexError and every targeted vertex receives one and the same
delta (vector D below), non-targeted vertices are untouched.  (The
counterexample shows the session path does displace a proper prefix when
the supplied list contains an out-of-range index.) -/
theorem C2_atomicity_amended (objName : Option String) (dir : Vec3) (dist : ℝ)
    (space : String) (idx : Option (List Nat)) (s : HostState)
    (nm : String) (o : ObjData) (idxs : List Nat)
    (hnm : dataObjectsGet s nm = some o)
    (hb : ∀ i ∈ idxs, i < o.verts.length) (hnd : idxs.Nodup) :
    ((move_mesh_fast objName dir dist space idx s).1 ≠ none →
      (move_mesh_fast objName dir dist space idx s).2 = s) ∧
    (MeshSession.move_vertices nm dir dist space (some idxs) s).1 ≠ some .indexError ∧
    (∃ D, vertsOf (MeshSession.move_vertices nm dir dist space (some idxs) s).2 nm =
      some (addMem D idxs o.verts 0)) := by
  refine ⟨?_, ?_⟩
  · intro he
    rcases move_mesh_fast_cases objName dir dist space idx s with h | ⟨nm2, cos, hob, h⟩
    · exact h
    · rw [h] at he
      cases he rfl
  · rw [move_vertices_run nm dir dist space (some idxs) s o hnm]
    unfold move_vertices_core
    by_cases h3 : dist = 0
    · rw [if_pos h3]
      refine ⟨by simp, ⟨0, ?_⟩⟩
      rw [Vec3.zero_def, addMem_zero_delta]
      exact vertsOf_updateVerts s nm o hnm o.verts
    · rw [if_neg h3]
      by_cases h4 : dir.length = 0
      · rw [if_pos h4]
        refine ⟨by simp, ⟨0, ?_⟩⟩
        rw [Vec3.zero_def, addMem_zero_delta]
        exact vertsOf_updateVerts s nm o hnm o.verts
      · rw [if_neg h4]
        by_cases h5 : pyUpper space = "WORLD"
        · rw [if_pos h5]
          simp only []
          rw [loopIdx_bounds_ok _ idxs o.verts hb hnd]
          refine ⟨by simp, ⟨_, vertsOf_updateVerts s nm o hnm _⟩⟩
        · rw [if_neg h5]
          by_cases h6 : pyUpper space = "LOCAL"
          · rw [if_pos h6]
            simp only []
            rw [loopIdx_bounds_ok _ idxs o.verts hb hnd]
            refine ⟨by simp, ⟨_, vertsOf_updateVerts s nm o hnm _⟩⟩
          · rw [if_neg h6]
            refine ⟨by simp, ⟨0, ?_⟩⟩
            rw [Vec3.zero_def, addMem_zero_delta]
            exact vertsOf_updateVerts s nm o hnm o.verts

theorem C2_atomicity_amended_witness :
    ((move_mesh_fast (some "Cube") ⟨0, 0, 1⟩ 1 "LOCAL" none sEdit2).1 ≠ none →
      (move_mesh_fast (some "Cube") ⟨0, 0, 1⟩ 1 "LOCAL" none sEdit2).2 = sEdit2) ∧
    (MeshSession.move_vertices "Cube" ⟨0, 0, 1⟩ 1 "LOCAL" (some [0, 1]) sEdit2).1 ≠
      some .indexError ∧
    (∃ D, vertsOf
        (MeshSession.move_vertices "Cube" ⟨0, 0, 1⟩ 1 "LOCAL" (some [0, 1]) sEdit2).2 "Cube" =
      some (addMem D [0, 1] (cubeScene 1 [⟨0, 0, 0⟩, ⟨0, 0, 0⟩] false).verts 0)) :=
  C2_atomicity_amended (some "Cube") ⟨0, 0, 1⟩ 1 "LOCAL" none sEdit2 "Cube"
    (cubeScene 1 [⟨0, 0, 0⟩, ⟨0, 0, 0⟩] false) [0, 1] rfl (by decide) (by decide)

/-- C3 (amended): forcing the FAST backend raises the unsafe-backend error,
with the host state exactly the input state (raised before any host state
is touched), when the host reports mesh edit mode (EDIT_MESH) specifically
-- not in every edit-level mode: the counterexample shows an EDIT_CURVE
host proceeds; when the host does not report EDIT_MESH the forced call
proceeds via move_mesh_fast without falling back. -/
theorem C3_forced_fast_amended (objName : Option String) (dir : Vec3) (dist : ℝ)
    (space : String) (idx : Option (List Nat)) (s : HostState) :
    (s.mode = "EDIT_MESH" →
      Ops.move_mesh objName dir dist space .FAST idx s =
        (some (.contextError "FAST backend cannot run in Edit Mode. Use AUTO or BMESH"), s)) ∧
    (¬ (s.mode = "EDIT_MESH") →
      Ops.move_mesh objName dir dist space .FAST idx s =
        move_mesh_fast objName dir dist space idx s) := by
  constructor
  · intro h
    unfold Ops.move_mesh
    rw [if_pos rfl, if_pos h]
  · intro h
    unfold Ops.move_mesh
    rw [if_pos rfl, if_neg h]

theorem C3_forced_fast_amended_witness :
    Ops.move_mesh (some "Cube") ⟨0, 0, 1⟩ 1 "LOCAL" .FAST none sEdit2 =
      (some (.contextError "FAST backend cannot run in Edit Mode. Use AUTO or BMESH"),
        sEdit2) ∧
    Ops.move_mesh (some "Cube") ⟨0, 0, 1⟩ 1 "LOCAL" .FAST none sCurve =
      move_mesh_fast (some "Cube") ⟨0, 0, 1⟩ 1 "LOCAL" none sCurve :=
  ⟨(C3_forced_fast_amended (some "Cube") ⟨0, 0, 1⟩ 1 "LOCAL" none sEdit2).1 rfl,
   (C3_forced_fast_amended (some "Cube") ⟨0, 0, 1⟩ 1 "LOCAL" none sCurve).2 (by decide)⟩

/-- C4 (amended): with backend AUTO the decision is evaluated fresh from
the current host mode on every call, but the test is mesh edit mode
(EDIT_MESH) specifically, not edit-level in general: the direct-buffer
strategy is taken exactly when the host does not report EDIT_MESH (so in
EDIT_CURVE and the other edit-level modes AUTO still takes the
direct-buffer path, as the counterexample records), and otherwise the call
routes to the session; the direct-buffer path preserves mode, active
object and every selection flag and issues no mode, selection, or
active-object host call. -/
theorem C4_auto_fresh_amended (objName : Option String) (dir : Vec3) (dist : ℝ)
    (space : String) (idx : Option (List Nat)) (s : HostState) :
    (¬ (s.mode = "EDIT_MESH") →
      Ops.move_mesh objName dir dist space .AUTO idx s =
        move_mesh_fast objName dir dist space idx s) ∧
    (s.mode = "EDIT_MESH" →
      Ops.move_mesh objName dir dist space .AUTO idx s =
        sessionMove objName dir dist space idx s) ∧
    (move_mesh_fast objName dir dist space idx s).2.mode = s.mode ∧
    (move_mesh_fast objName dir dist space idx s).2.active = s.active ∧
    selView (move_mesh_fast objName dir dist space idx s).2 = selView s ∧
    ∃ tail, (move_mesh_fast objName dir dist space idx s).2.events = s.events ++ tail ∧
      tail.all (fun e => match e with
        | .modeSet _ => false
        | .selectSet _ _ => false
        | .setActive _ => false
        | _ => true) = true := by
  obtain ⟨hm, ha, hsel, hev⟩ := move_mesh_fast_preserves objName dir dist space idx s
  refine ⟨?_, ?_, hm, ha, hsel, ?_⟩
  · intro h
    unfold Ops.move_mesh
    rw [if_neg (by decide : ¬ (MeshBackend.AUTO = MeshBackend.FAST)), if_pos ⟨rfl, h⟩]
  · intro h
    unfold Ops.move_mesh
    rw [if_neg (by decide : ¬ (MeshBackend.AUTO = MeshBackend.FAST)),
      if_neg (fun hc => hc.2 h)]
  · rcases hev with h | ⟨nm, _, h⟩
    · exact ⟨[], by rw [h, List.append_nil], rfl⟩
    · exact ⟨[.bufferWrite nm, .meshUpdate nm], h, rfl⟩

theorem C4_auto_fresh_amended_witness :
    Ops.move_mesh (some "Cube") ⟨0, 0, 1⟩ 1 "LOCAL" .AUTO none sCurve =
      move_mesh_fast (some "Cube") ⟨0, 0, 1⟩ 1 "LOCAL" none sCurve ∧
    Ops.move_mesh (some "Cube") ⟨0, 0, 1⟩ 1 "LOCAL" .AUTO none sEdit2 =
      sessionMove (some "Cube") ⟨0, 0, 1⟩ 1 "LOCAL" none sEdit2 :=
  ⟨(C4_auto_fresh_amended (some "Cube") ⟨0, 0, 1⟩ 1 "LOCAL" none sCurve).1 (by decide),
   (C4_auto_fresh_amended (some "Cube") ⟨0, 0, 1⟩ 1 "LOCAL" none sEdit2).2.1 rfl⟩

/-- For an affine world transform (bottom row 0 0 0 1) with invertible
upper-left 3 by 3 block, the 3 by 3 block of the 4 by 4 inverse is the
inverse of the 3 by 3 block.  This is the bridge between the code (which
inverts the full 4 by 4 matrix and then takes to_3x3) and the spec (which
speaks of the inverse of the 3 by 3 part). -/
theorem to_3x3_inv_affine (M : Mat4)
    (hbot : ∀ k : Fin 3, M (Fin.last 3) k.castSucc = 0)
    (hcorner : M (Fin.last 3) (Fin.last 3) = 1)
    (hdet : IsUnit (to_3x3 M).det) :
    to_3x3 (inverted_safe M) = (to_3x3 M)⁻¹ := by
  have hA : to_3x3 M * (to_3x3 M)⁻¹ = 1 := Matrix.mul_nonsing_inv _ hdet
  have hMN : M * (Matrix.of fun i j => Fin.lastCases (motive := fun _ => ℝ)
      (Fin.lastCases (motive := fun _ => ℝ) 1 (fun _ => 0) j)
      (fun p => Fin.lastCases (motive := fun _ => ℝ)
        (-(∑ m : Fin 3, (to_3x3 M)⁻¹ p m * M m.castSucc (Fin.last 3)))
        (fun q => (to_3x3 M)⁻¹ p q) j) i) = 1 := by
    ext i j
    rw [Matrix.mul_apply]
    simp only [Matrix.of_apply]
    induction i using Fin.lastCases with
    | last =>
        induction j using Fin.lastCases with
        | last =>
            rw [Fin.sum_univ_castSucc]
            simp only [Fin.lastCases_castSucc, Fin.lastCases_last]
            simp [hbot, hcorner, Matrix.one_apply_eq]
        | cast q =>
            rw [Fin.sum_univ_castSucc]
            simp only [Fin.lastCases_castSucc, Fin.lastCases_last]
            rw [Matrix.one_apply_ne ((Fin.castSucc_lt_last q).ne.symm)]
            simp [hbot]
    | cast p =>
        induction j using Fin.lastCases with
        | last =>
            rw [Fin.sum_univ_castSucc]
            simp only [Fin.lastCases_castSucc, Fin.lastCases_last]
            have key : ∀ m : Fin 3,
                ∑ k : Fin 3, M p.castSucc k.castSucc * (to_3x3 M)⁻¹ k m
                  = (1 : Mat3) p m := by
              intro m
              have h1 : ∑ k : Fin 3, M p.castSucc k.castSucc * (to_3x3 M)⁻¹ k m
                  = (to_3x3 M * (to_3x3 M)⁻¹) p m := by
                rw [Matrix.mul_apply]
                rfl
              rw [h1, hA]
            have hexp : (∑ k : Fin 3, M p.castSucc k.castSucc *
                  (-(∑ m : Fin 3, (to_3x3 M)⁻¹ k m * M m.castSucc (Fin.last 3))))
                = -(∑ m : Fin 3, (∑ k : Fin 3, M p.castSucc k.castSucc * (to_3x3 M)⁻¹ k m)
                    * M m.castSucc (Fin.last 3)) := by
              simp only [mul_neg, Finset.mul_sum, Finset.sum_neg_distrib, Finset.sum_mul]
              rw [Finset.sum_comm]
              simp [mul_assoc]
            have h2 : ∑ m : Fin 3, (∑ k : Fin 3, M p.castSucc k.castSucc * (to_3x3 M)⁻¹ k m)
                  * M m.castSucc (Fin.last 3)
                = ∑ m : Fin 3, (1 : Mat3) p m * M m.castSucc (Fin.last 3) :=
              Finset.sum_congr rfl (fun m _ => by rw [key m])
            have h3 : ∑ m : Fin 3, (1 : Mat3) p m * M m.castSucc (Fin.last 3)
                = M p.castSucc (Fin.last 3) := by
              simp [Matrix.one_apply, ite_mul]
            rw [hexp, h2, h3, Matrix.one_apply_ne ((Fin.castSucc_lt_last p).ne)]
            ring
        | cast q =>
            rw [Fin.sum_univ_castSucc]
            simp only [Fin.lastCases_castSucc, Fin.lastCases_last]
            rw [mul_zero, add_zero]
            have h1 : ∑ k : Fin 3, M p.castSucc k.castSucc * (to_3x3 M)⁻¹ k q
                = (to_3x3 M * (to_3x3 M)⁻¹) p q := by
              rw [Matrix.mul_apply]
              rfl
            rw [h1, hA, Matrix.one_apply, Matrix.one_apply]
            simp [Fin.castSucc_inj]
  have hMinv := Matrix.inv_eq_right_inv hMN
  show to_3x3 M⁻¹ = (to_3x3 M)⁻¹
  rw [hMinv]
  ext p q
  show Fin.lastCases (motive := fun _ => ℝ)
      (Fin.lastCases (motive := fun _ => ℝ) 1 (fun _ => 0) q.castSucc)
      (fun r => Fin.lastCases (motive := fun _ => ℝ)
        (-(∑ m : Fin 3, (to_3x3 M)⁻¹ r m * M m.castSucc (Fin.last 3)))
        (fun c => (to_3x3 M)⁻¹ r c) q.castSucc) p.castSucc = (to_3x3 M)⁻¹ p q
  simp only [Fin.lastCases_castSucc]

/-- C5 (amended): for a non-zero direction and non-zero distance the
displacement is normalize(direction) * distance in LOCAL space; in WORLD
space it is the inverse of the upper-left 3 by 3 block of the object's
world transform applied to that vector -- the translation column is
excluded by taking the 3 by 3 block, but the block's scale component is
included in the conversion, not excluded (the counterexample records a
scaled delta under a pure scale transform).  Each targeted vertex -- the
whole buffer, or exactly the positions listed in an in-bounds
duplicate-free index list -- is incremented by exactly that delta.  Stated
for an affine world transform (bottom row 0 0 0 1) with invertible 3 by 3
block. -/
theorem C5_delta_amended (M : Mat4) (dir : Vec3) (dist : ℝ) (cos : List Vec3)
    (idxs : List Nat)
    (hdist : ¬ (dist = 0)) (hlen : ¬ (dir.length = 0))
    (hbot : ∀ k : Fin 3, M (Fin.last 3) k.castSucc = 0)
    (hcorner : M (Fin.last 3) (Fin.last 3) = 1)
    (hdet : IsUnit (to_3x3 M).det)
    (hb : ∀ i ∈ idxs, i < cos.length) (hnd : idxs.Nodup) :
    move_vertices_core M dir dist "LOCAL" none cos =
      (none, cos.map (fun c => c + dist • dir.normalized)) ∧
    move_vertices_core M dir dist "WORLD" none cos =
      (none, cos.map (fun c => c + mat3MulVec ((to_3x3 M)⁻¹) (dist • dir.normalized))) ∧
    move_vertices_core M dir dist "LOCAL" (some idxs) cos =
      (none, addMem (dist • dir.normalized) idxs cos 0) ∧
    move_vertices_core M dir dist "WORLD" (some idxs) cos =
      (none, addMem (mat3MulVec ((to_3x3 M)⁻¹) (dist • dir.normalized)) idxs cos 0) := by
  have hinv := to_3x3_inv_affine M hbot hcorner hdet
  unfold move_vertices_core
  rw [if_neg hdist, if_neg hlen, if_neg hdist, if_neg hlen,
    if_neg hdist, if_neg hlen, if_neg hdist, if_neg hlen]
  simp only []
  rw [if_neg (by decide : ¬ (pyUpper "LOCAL" = "WORLD")),
    if_pos (by decide : pyUpper "LOCAL" = "LOCAL"),
    if_pos (by decide : pyUpper "WORLD" = "WORLD"),
    if_neg (by decide : ¬ (pyUpper "LOCAL" = "WORLD")),
    if_pos (by decide : pyUpper "LOCAL" = "LOCAL"),
    if_pos (by decide : pyUpper "WORLD" = "WORLD")]
  simp only []
  rw [hinv]
  refine ⟨trivial, rfl, ?_, ?_⟩
  · rw [loopIdx_bounds_ok _ idxs cos hb hnd]
  · rw [loopIdx_bounds_ok _ idxs cos hb hnd]

theorem C5_delta_amended_witness :
    move_vertices_core scaleM ⟨0, 0, 1⟩ 1 "LOCAL" none [⟨0, 0, 0⟩] =
      (none, [⟨0, 0, 0⟩].map (fun c => c + (1 : ℝ) • (Vec3.normalized ⟨0, 0, 1⟩))) ∧
    move_vertices_core scaleM ⟨0, 0, 1⟩ 1 "WORLD" none [⟨0, 0, 0⟩] =
      (none, [⟨0, 0, 0⟩].map (fun c =>
        c + mat3MulVec ((to_3x3 scaleM)⁻¹) ((1 : ℝ) • (Vec3.normalized ⟨0, 0, 1⟩)))) ∧
    move_vertices_core scaleM ⟨0, 0, 1⟩ 1 "LOCAL" (some [0]) [⟨0, 0, 0⟩] =
      (none, addMem ((1 : ℝ) • (Vec3.normalized ⟨0, 0, 1⟩)) [0] [⟨0, 0, 0⟩] 0) ∧
    move_vertices_core scaleM ⟨0, 0, 1⟩ 1 "WORLD" (some [0]) [⟨0, 0, 0⟩] =
      (none, addMem (mat3MulVec ((to_3x3 scaleM)⁻¹)
        ((1 : ℝ) • (Vec3.normalized ⟨0, 0, 1⟩))) [0] [⟨0, 0, 0⟩] 0) :=
  C5_delta_amended scaleM ⟨0, 0, 1⟩ 1 [⟨0, 0, 0⟩] [0]
    (by norm_num)
    (by rw [Vec3.length_unitZ]; norm_num)
    (fun k => Matrix.diagonal_apply_ne _ (Ne.symm (Fin.castSucc_lt_last k).ne))
    (by simp [scaleM, Matrix.diagonal_apply_eq, Fin.val_last])
    (by rw [scaleM_to3x3]; rw [Matrix.det_smul]; simp [isUnit_iff_ne_zero])
    (by decide) (by decide)

theorem vec_add_zero (c : Vec3) : c + (⟨0, 0, 0⟩ : Vec3) = c := by
  rw [Vec3.add_def]
  cases c
  simp

theorem mat3MulVec_zero (M : Mat3) : mat3MulVec M (⟨0, 0, 0⟩ : Vec3) = ⟨0, 0, 0⟩ := by
  unfold mat3MulVec
  simp

theorem list_map_add_zero (cos : List Vec3) :
    cos.map (fun c => c + (⟨0, 0, 0⟩ : Vec3)) = cos := by
  simp [vec_add_zero]

theorem move_bmesh_zero (vertIdx : Option (List Nat)) (cos : List Vec3)
    (hb : ∀ l, vertIdx = some l → ∀ i ∈ l, i < cos.length) :
    _move_bmesh (⟨0, 0, 0⟩ : Vec3) vertIdx cos = .ok cos := by
  unfold _move_bmesh
  cases vertIdx with
  | none =>
      simp only []
      rw [list_map_add_zero]
  | some l =>
      simp only []
      unfold fastApplyIdx
      rw [if_pos]
      · rw [addMem_zero_delta]
      · simp only [List.all_eq_true, decide_eq_true_eq]
        exact hb l rfl

theorem objects_map_upd_self (s : HostState) (nm : String) (o : ObjData)
    (ho : dataObjectsGet s nm = some o)
    (hnd : (s.objects.map (fun x => x.name)).Nodup) :
    s.objects.map (fun y => if y.name = nm then { y with verts := o.verts } else y)
      = s.objects := by
  have honm : o.name = nm := find?_name_eq s nm o ho
  have hom : o ∈ s.objects := mem_of_dataObjectsGet s nm o ho
  conv_rhs => rw [← List.map_id s.objects]
  apply List.map_congr_left
  intro x hx
  by_cases h : x.name = nm
  · have hxo : x = o := name_inj_of_nodup s.objects hnd x o hx hom (by rw [h, honm])
    subst hxo
    rw [if_pos h]
    rfl
  · rw [if_neg h]
    rfl

theorem objects_map_upd_sel_self (s : HostState) (nm : String) (o : ObjData)
    (ho : dataObjectsGet s nm = some o)
    (hnd : (s.objects.map (fun x => x.name)).Nodup) :
    s.objects.map (fun x =>
        { (if x.name = nm then { x with verts := o.verts } else x : ObjData) with
          sel := x.sel })
      = s.objects := by
  have honm : o.name = nm := find?_name_eq s nm o ho
  have hom : o ∈ s.objects := mem_of_dataObjectsGet s nm o ho
  conv_rhs => rw [← List.map_id s.objects]
  apply List.map_congr_left
  intro x hx
  by_cases h : x.name = nm
  · have hxo : x = o := name_inj_of_nodup s.objects hnd x o hx hom (by rw [h, honm])
    subst hxo
    rw [if_pos h]
    rfl
  · rw [if_neg h]
    rfl

theorem updateVerts_self (s : HostState) (nm : String) (o : ObjData)
    (ho : dataObjectsGet s nm = some o)
    (hnd : (s.objects.map (fun x => x.name)).Nodup) :
    updateVerts s nm o.verts = s := by
  show ({ s with objects := List.map (fun y =>
      if y.name = nm then { y with verts := o.verts } else y) s.objects } : HostState) = s
  rw [show (List.map (fun y => if y.name = nm then { y with verts := o.verts } else y)
      s.objects) = s.objects.map (fun y =>
      if y.name = nm then { y with verts := o.verts } else y) from rfl]
  rw [objects_map_upd_self s nm o ho hnd]

/-- mesh_ops.move_mesh at distance zero with a non-degenerate direction:
the zero delta goes through the full guard stack, so host calls are
emitted, but the final state has the objects (geometry and selection),
mode and active object of the initial state. -/
theorem meshOps_zero_dist_spec (nm : String) (dir : Vec3) (space : String)
    (idx : Option (List Nat)) (s : HostState) (o : ObjData)
    (ho : dataObjectsGet s nm = some o) (htyp : o.typ = "MESH")
    (hvlo : o.in_view_layer = true) (hvl : s.has_view_layer = true)
    (hnd : (s.objects.map (fun x => x.name)).Nodup)
    (a : String) (hacts : s.active = some a) (haex : (dataObjectsGet s a).isSome = true)
    (hmode : s.mode = "OBJECT" ∨ s.mode = "EDIT_MESH")
    (hspace : pyUpper space = "LOCAL" ∨ pyUpper space = "WORLD")
    (hidx : ∀ l, idx = some l → ∀ i ∈ l, i < o.verts.length)
    (hlen : ¬ (dir.length = 0)) :
    ∃ evs, MeshOps.move_mesh (some nm) dir 0 space idx s =
      (none, ⟨s.mode, s.objects, s.active, s.has_view_layer, s.events ++ evs⟩) := by
  set f : ObjData → ObjData :=
    (fun y => if y.name = nm then { y with verts := o.verts } else y) with hf
  have hfn : ∀ x, (f x).name = x.name := by
    intro x
    rw [hf]
    by_cases h : x.name = nm <;> simp [h]
  have hfv : ∀ x, (f x).in_view_layer = x.in_view_layer := by
    intro x
    rw [hf]
    by_cases h : x.name = nm <;> simp [h]
  have hfs : ∀ x, (f x).sel = x.sel := by
    intro x
    rw [hf]
    by_cases h : x.name = nm <;> simp [h]
  have hfc : ∀ x b, f ({ x with sel := b } : ObjData) = { f x with sel := b } := by
    intro x b
    rw [hf]
    by_cases h : x.name = nm <;> simp [h]
  have hW : ∀ s1 : HostState, s1.mode = "EDIT_MESH" →
      dataObjectsGet s1 nm = some ({ o with sel := true } : ObjData) →
      meshOpsEditBody nm ⟨0, 0, 0⟩ idx s1 =
      ((none : Option PyErr), ⟨s1.mode, s1.objects.map f, s1.active, s1.has_view_layer,
           s1.events ++ [.meshUpdate nm]⟩) := by
    intro s1 hm1 hg1
    unfold meshOpsEditBody
    rw [if_pos hm1, hg1]
    simp only []
    rw [show ({ o with sel := true } : ObjData).verts = o.verts from rfl]
    rw [move_bmesh_zero idx o.verts hidx]
    simp only []
    unfold updateVerts
    rw [hf]
  obtain ⟨evs1, hrun1⟩ := modeScope_edit_run nm (meshOpsEditBody nm ⟨0, 0, 0⟩ idx) s o
    ho htyp hvlo hvl hnd a hacts haex hmode none f [.meshUpdate nm] hfn hfv hfs hfc hW
  obtain ⟨evs, hrun⟩ := preserve_selection_run
    (fun s0 => edit_mode (some nm) (meshOpsEditBody nm ⟨0, 0, 0⟩ idx) s0) s
    none s.mode s.active f evs1 hvl hnd hfn hfv (fun x _ _ => hfs x) a hacts haex
    (by unfold edit_mode; exact hrun1)
  refine ⟨evs, ?_⟩
  unfold MeshOps.move_mesh
  simp only [ho]
  rw [if_neg (by simp [htyp] : ¬ (o.typ ≠ "MESH")), if_neg hlen]
  rw [if_neg (not_not_intro hspace)]
  simp only [smul_zero_vec, mat3MulVec_zero, ite_self]
  rw [hrun, hf]
  rw [objects_map_upd_sel_self s nm o ho hnd]

/-- C6 (amended): a zero-length direction or a zero distance leaves the
vertex buffer, the selection flags, the mode and the active object of the
final state identical to the initial state on every entry point, and
move_mesh_fast, mesh/ops.py move_mesh with AUTO outside mesh edit mode,
MeshSession.move_vertices, and mesh_ops.py move_mesh on a zero-length
direction are strict no-ops -- but mesh_ops.py move_mesh has no
zero-distance early return: a zero-distance call with a non-degenerate
direction still runs the full guard stack, so mode-switch and selection
host calls are observed during the call (the counterexample records the
emitted mode_set), even though the final state differs from the initial
one only by the appended event log. -/
theorem C6_zero_noop_amended (nm : String) (dir : Vec3) (dist : ℝ) (space : String)
    (idx : Option (List Nat)) (s : HostState) (o : ObjData)
    (ho : dataObjectsGet s nm = some o) (htyp : o.typ = "MESH")
    (hvlo : o.in_view_layer = true) (hvl : s.has_view_layer = true)
    (hnd : (s.objects.map (fun x => x.name)).Nodup)
    (a : String) (hacts : s.active = some a) (haex : (dataObjectsGet s a).isSome = true)
    (hmode : s.mode = "OBJECT" ∨ s.mode = "EDIT_MESH")
    (hspace : pyUpper space = "LOCAL" ∨ pyUpper space = "WORLD")
    (hidx : ∀ l, idx = some l → ∀ i ∈ l, i < o.verts.length)
    (hzero : dist = 0 ∨ dir.length = 0) :
    (¬ (s.mode = "EDIT_MESH") →
      move_mesh_fast (some nm) dir dist space idx s = (none, s)) ∧
    (¬ (s.mode = "EDIT_MESH") →
      Ops.move_mesh (some nm) dir dist space .AUTO idx s = (none, s)) ∧
    MeshSession.move_vertices nm dir dist space idx s = (none, s) ∧
    (dir.length = 0 → MeshOps.move_mesh (some nm) dir dist space idx s = (none, s)) ∧
    (∃ evs, MeshOps.move_mesh (some nm) dir dist space idx s =
      (none, ⟨s.mode, s.objects, s.active, s.has_view_layer, s.events ++ evs⟩)) := by
  have hcore : move_vertices_core o.matrix_world dir dist space idx o.verts =
      (none, o.verts) := by
    unfold move_vertices_core
    by_cases hd : dist = 0
    · rw [if_pos hd]
    · rw [if_neg hd, if_pos (hzero.resolve_left hd)]
  have hfast : ∀ _ : ¬ (s.mode = "EDIT_MESH"),
      move_mesh_fast (some nm) dir dist space idx s = (none, s) := by
    intro hne
    unfold move_mesh_fast
    simp only [ho]
    rw [if_neg (by simp [htyp] : ¬ (o.typ ≠ "MESH")), if_neg hne]
    by_cases hd : dist = 0
    · rw [if_pos hd]
    · rw [if_neg hd, if_pos (hzero.resolve_left hd)]
  have hmeshops0 : dir.length = 0 →
      MeshOps.move_mesh (some nm) dir dist space idx s = (none, s) := by
    intro hl
    unfold MeshOps.move_mesh
    simp only [ho]
    rw [if_neg (by simp [htyp] : ¬ (o.typ ≠ "MESH")), if_pos hl]
  refine ⟨hfast, ?_, ?_, hmeshops0, ?_⟩
  · intro hne
    unfold Ops.move_mesh
    rw [if_neg (by decide : ¬ (MeshBackend.AUTO = MeshBackend.FAST)), if_pos ⟨rfl, hne⟩]
    exact hfast hne
  · unfold MeshSession.move_vertices
    simp only [ho]
    rw [hcore]
    simp only []
    rw [updateVerts_self s nm o ho hnd]
  · by_cases hl : dir.length = 0
    · refine ⟨[], ?_⟩
      rw [hmeshops0 hl, List.append_nil]
    · have hd : dist = 0 := hzero.resolve_right hl
      subst hd
      exact meshOps_zero_dist_spec nm dir space idx s o ho htyp hvlo hvl hnd
        a hacts haex hmode hspace hidx hl

theorem C6_zero_noop_amended_witness :
    (¬ (sObj.mode = "EDIT_MESH") →
      move_mesh_fast (some "Cube") ⟨0, 0, 1⟩ 0 "LOCAL" none sObj = (none, sObj)) ∧
    (¬ (sObj.mode = "EDIT_MESH") →
      Ops.move_mesh (some "Cube") ⟨0, 0, 1⟩ 0 "LOCAL" .AUTO none sObj = (none, sObj)) ∧
    MeshSession.move_vertices "Cube" ⟨0, 0, 1⟩ 0 "LOCAL" none sObj = (none, sObj) ∧
    ((⟨0, 0, 1⟩ : Vec3).length = 0 →
      MeshOps.move_mesh (some "Cube") ⟨0, 0, 1⟩ 0 "LOCAL" none sObj = (none, sObj)) ∧
    (∃ evs, MeshOps.move_mesh (some "Cube") ⟨0, 0, 1⟩ 0 "LOCAL" none sObj =
      (none, ⟨sObj.mode, sObj.objects, sObj.active, sObj.has_view_layer,
        sObj.events ++ evs⟩)) :=
  C6_zero_noop_amended "Cube" ⟨0, 0, 1⟩ 0 "LOCAL" none sObj
    (cubeScene 1 [⟨0, 0, 0⟩] false) rfl rfl rfl rfl (by decide) "Cube" rfl (by decide)
    (Or.inl rfl) (Or.inl (by decide)) (fun l h => by cases h) (Or.inl rfl)

/-- C9 (amended): selection-guard exit first deselects every currently
selected object, then re-selects exactly the snapshot names that still
resolve (names that no longer exist are silently skipped, because
re-selection acts only on resolved objects), then restores the snapshot
active object when its name still resolves and keeps the current active
object otherwise.  When every surviving snapshot name is still in the view
layer, exit raises nothing.  Exit has no error handling of its own,
however: the counterexample shows that when a snapshot name resolves to an
object that can no longer be selected (dropped from the view layer), the
select_set failure propagates out of exit instead of being swallowed. -/
theorem C9_exit_amended (st : SelectionState) (s : HostState)
    (hvl : s.has_view_layer = true)
    (hns : ∀ n ∈ st.selected_names, ∀ o,
      dataObjectsGet s n = some o → o.in_view_layer = true)
    (hnd : (s.objects.map (fun x => x.name)).Nodup) :
    ∃ evs, restore_selection st true s =
      (none, ⟨s.mode,
        s.objects.map (fun o =>
          reselName st.selected_names
            (deselName ((selectedObjects s).map (fun x => x.name)) o)),
        (match st.active_name with
         | none => s.active
         | some nm => if (dataObjectsGet s nm).isSome = true then some nm else s.active),
        s.has_view_layer, s.events ++ evs⟩) :=
  restore_selection_spec st s hvl hns hnd

theorem C9_exit_amended_witness :
    ∃ evs, restore_selection ⟨some "A", ["A", "Ghost"]⟩ true sC9 =
      (none, ⟨sC9.mode,
        sC9.objects.map (fun o =>
          reselName ["A", "Ghost"]
            (deselName ((selectedObjects sC9).map (fun x => x.name)) o)),
        (match (some "A" : Option String) with
         | none => sC9.active
         | some nm => if (dataObjectsGet sC9 nm).isSome = true then some nm else sC9.active),
        sC9.has_view_layer, sC9.events ++ evs⟩) :=
  C9_exit_amended ⟨some "A", ["A", "Ghost"]⟩ sC9 rfl
    (by
      intro n hn o hoo
      rcases List.mem_cons.mp hn with rfl | hn2
      · have h2 : some (⟨"A", "MESH", 1, [], true, true⟩ : ObjData) = some o := hoo
        injection h2 with h3
        rw [← h3]
      · rcases List.mem_cons.mp hn2 with rfl | hn3
        · exact Option.noConfusion hoo
        · exact absurd hn3 (List.not_mem_nil n))
    (by decide)

/-- Evaluation of the session path on an unrecognized space token: the
error is only raised by the shared core, after the mode guard has already
selected and activated the object and switched the host into mesh edit
mode; the guards then restore on unwind. -/
theorem C8_session_space_run :
    Ops.move_mesh (some "Cube") ⟨0, 0, 1⟩ 1 "SPHERICAL" .BMESH none sObj =
      (some (.contextError "Space must be LOCAL or WORLD."),
       ⟨"OBJECT", [cubeScene 1 [⟨0, 0, 0⟩] false], some "Cube", true,
        [.selectSet "Cube" true, .setActive "Cube", .modeSet "EDIT", .meshUpdate "Cube",
         .modeSet "OBJECT", .selectSet "Cube" false, .setActive "Cube"]⟩) := by
  rw [Ops.move_mesh]
  simp +decide [sObj, cubeScene, dataObjectsGet, updateVerts, Vec3.length_unitZ,
    sessionMove, meshSessionScope, meshSessionValidate, MeshSession.move_vertices,
    move_vertices_core, preserve_selection, capture_selection, selectedObjects,
    edit_mode, modeScope, set_active, set_active_body, modeScope_body, selectSetOp,
    setObjSel, setActiveOp, modeSwitchAndBody, _is_object_mode, _is_edit_mode,
    modeSetOp, hostModeFor, modeRestore, restore_selection, deselLoop, reselLoop,
    restoreActive]

/-- C8 counterexample run: an unrecognized space token through the
topological path (forced BMESH backend) is not raised before any guard is
entered: the failed call has issued a mode-switch host call (and selection
writes), observable in the event log, even though geometry, mode,
selection and the active object are restored by the guards on unwind. -/
theorem C8_space_error_after_guard :
    (Ops.move_mesh (some "Cube") ⟨0, 0, 1⟩ 1 "SPHERICAL" .BMESH none sObj).1 =
      some (.contextError "Space must be LOCAL or WORLD.") ∧
    hasModeSet
      (Ops.move_mesh (some "Cube") ⟨0, 0, 1⟩ 1 "SPHERICAL" .BMESH none sObj).2.events =
      true ∧
    hasModeSet sObj.events = false ∧
    vertsOf (Ops.move_mesh (some "Cube") ⟨0, 0, 1⟩ 1 "SPHERICAL" .BMESH none sObj).2
      "Cube" = vertsOf sObj "Cube" := by
  refine ⟨?_, ?_, rfl, ?_⟩
  · rw [C8_session_space_run]
  · rw [C8_session_space_run]
    decide
  · rw [C8_session_space_run]
    rfl

/-- C8 (amended): object validation errors (null or wrong-kind object) are
raised before any guard on every entry point, with the returned state
exactly the input state; mesh_ops.py move_mesh also validates the space
token before its guards, and the direct-buffer path raises its space error
without touching any state; but the session path (forced BMESH, or AUTO in
mesh edit mode) validates the space token only inside the shared core,
after the selection and mode guards have been entered: the error then
propagates with geometry, objects, mode and active object restored by the
guards and only the event log -- including the emitted mode-switch calls
recorded by the counterexample -- grown.  (The unsupported-mode-token
check is unreachable from the public move operations, which always request
EDIT.) -/
theorem C8_validation_amended (dir : Vec3) (dist : ℝ) (space : String)
    (backend : MeshBackend) (idx : Option (List Nat)) (s : HostState)
    (nm : String) (o : ObjData) (nm2 : String) (o2 : ObjData)
    (ho : dataObjectsGet s nm = some o) (htyp : o.typ = "MESH")
    (hvlo : o.in_view_layer = true) (hvl : s.has_view_layer = true)
    (hnd : (s.objects.map (fun x => x.name)).Nodup)
    (a : String) (hacts : s.active = some a) (haex : (dataObjectsGet s a).isSome = true)
    (hmode : s.mode = "OBJECT" ∨ s.mode = "EDIT_MESH")
    (ho2 : dataObjectsGet s nm2 = some o2) (htyp2 : ¬ (o2.typ = "MESH"))
    (hdist : ¬ (dist = 0)) (hlen : ¬ (dir.length = 0))
    (hbadsp : ¬ (pyUpper space = "LOCAL" ∨ pyUpper space = "WORLD")) :
    ((Ops.move_mesh none dir dist space backend idx s).2 = s ∧
      (Ops.move_mesh none dir dist space backend idx s).1.isSome = true) ∧
    MeshOps.move_mesh none dir dist space idx s =
      (some (.contextError "Got None. Object was not found or not returned correctly."), s) ∧
    ((Ops.move_mesh (some nm2) dir dist space backend idx s).2 = s ∧
      (Ops.move_mesh (some nm2) dir dist space backend idx s).1.isSome = true) ∧
    MeshOps.move_mesh (some nm2) dir dist space idx s =
      (some (.contextError "Expected a MESH object."), s) ∧
    MeshOps.move_mesh (some nm) dir dist space idx s =
      (some (.contextError "Space must be LOCAL or WORLD"), s) ∧
    (¬ (s.mode = "EDIT_MESH") →
      move_mesh_fast (some nm) dir dist space idx s =
        (some (.contextError "Space must be LOCAL or WORLD."), s)) ∧
    (∃ evs, Ops.move_mesh (some nm) dir dist space .BMESH idx s =
      (some (.contextError "Space must be LOCAL or WORLD."),
       ⟨s.mode, s.objects, s.active, s.has_view_layer, s.events ++ evs⟩)) := by
  refine ⟨?_, rfl, ?_, ?_, ?_, ?_, ?_⟩
  · unfold Ops.move_mesh
    by_cases hbF : backend = MeshBackend.FAST
    · rw [if_pos hbF]
      by_cases hm : s.mode = "EDIT_MESH"
      · rw [if_pos hm]
        exact ⟨rfl, rfl⟩
      · rw [if_neg hm]
        exact ⟨rfl, rfl⟩
    · rw [if_neg hbF]
      by_cases hA : backend = MeshBackend.AUTO ∧ ¬ (s.mode = "EDIT_MESH")
      · rw [if_pos hA]
        exact ⟨rfl, rfl⟩
      · rw [if_neg hA]
        exact ⟨rfl, rfl⟩
  · have hfast2 : move_mesh_fast (some nm2) dir dist space idx s =
        (some (.contextError "Expected a mesh object."), s) := by
      unfold move_mesh_fast
      simp only [ho2]
      rw [if_pos htyp2]
    have hsess2 : sessionMove (some nm2) dir dist space idx s =
        (some (.contextError "Expected MESH object."), s) := by
      unfold sessionMove meshSessionScope meshSessionValidate
      simp only [ho2]
      rw [if_neg htyp2]
    unfold Ops.move_mesh
    by_cases hbF : backend = MeshBackend.FAST
    · rw [if_pos hbF]
      by_cases hm : s.mode = "EDIT_MESH"
      · rw [if_pos hm]
        exact ⟨rfl, rfl⟩
      · rw [if_neg hm, hfast2]
        exact ⟨rfl, rfl⟩
    · rw [if_neg hbF]
      by_cases hA : backend = MeshBackend.AUTO ∧ ¬ (s.mode = "EDIT_MESH")
      · rw [if_pos hA, hfast2]
        exact ⟨rfl, rfl⟩
      · rw [if_neg hA, hsess2]
        exact ⟨rfl, rfl⟩
  · unfold MeshOps.move_mesh
    simp only [ho2]
    rw [if_pos htyp2]
  · unfold MeshOps.move_mesh
    simp only [ho]
    rw [if_neg (by simp [htyp] : ¬ (o.typ ≠ "MESH")), if_neg hlen,
      if_pos hbadsp]
  · intro hne
    unfold move_mesh_fast
    simp only [ho]
    rw [if_neg (by simp [htyp] : ¬ (o.typ ≠ "MESH")), if_neg hne, if_neg hdist,
      if_neg hlen]
    rw [if_neg (fun h => hbadsp (Or.inr h)), if_neg (fun h => hbadsp (Or.inl h))]
  · have hcore : move_vertices_core o.matrix_world dir dist space idx o.verts =
        (some (.contextError "Space must be LOCAL or WORLD."), o.verts) := by
      unfold move_vertices_core
      rw [if_neg hdist, if_neg hlen]
      simp only []
      rw [if_neg (fun h => hbadsp (Or.inr h)), if_neg (fun h => hbadsp (Or.inl h))]
    obtain ⟨evs, hs⟩ := sessionMove_spec nm dir dist space idx s o ho htyp hvlo hvl hnd
      a hacts haex hmode
    refine ⟨evs, ?_⟩
    unfold Ops.move_mesh
    rw [if_neg (by decide : ¬ (MeshBackend.BMESH = MeshBackend.FAST)),
      if_neg (fun hc => absurd hc.1 (by decide))]
    rw [hs, hcore]
    simp only []
    rw [objects_map_upd_self s nm o ho hnd]

theorem C8_validation_amended_witness :
    ((Ops.move_mesh none ⟨0, 0, 1⟩ 1 "SPHERICAL" .BMESH none sC8).2 = sC8 ∧
      (Ops.move_mesh none ⟨0, 0, 1⟩ 1 "SPHERICAL" .BMESH none sC8).1.isSome = true) ∧
    MeshOps.move_mesh none ⟨0, 0, 1⟩ 1 "SPHERICAL" none sC8 =
      (some (.contextError "Got None. Object was not found or not returned correctly."),
       sC8) ∧
    ((Ops.move_mesh (some "Curve1") ⟨0, 0, 1⟩ 1 "SPHERICAL" .BMESH none sC8).2 = sC8 ∧
      (Ops.move_mesh (some "Curve1") ⟨0, 0, 1⟩ 1 "SPHERICAL" .BMESH none sC8).1.isSome =
        true) ∧
    MeshOps.move_mesh (some "Curve1") ⟨0, 0, 1⟩ 1 "SPHERICAL" none sC8 =
      (some (.contextError "Expected a MESH object."), sC8) ∧
    MeshOps.move_mesh (some "Cube") ⟨0, 0, 1⟩ 1 "SPHERICAL" none sC8 =
      (some (.contextError "Space must be LOCAL or WORLD"), sC8) ∧
    (¬ (sC8.mode = "EDIT_MESH") →
      move_mesh_fast (some "Cube") ⟨0, 0, 1⟩ 1 "SPHERICAL" none sC8 =
        (some (.contextError "Space must be LOCAL or WORLD."), sC8)) ∧
    (∃ evs, Ops.move_mesh (some "Cube") ⟨0, 0, 1⟩ 1 "SPHERICAL" .BMESH none sC8 =
      (some (.contextError "Space must be LOCAL or WORLD."),
       ⟨sC8.mode, sC8.objects, sC8.active, sC8.has_view_layer, sC8.events ++ evs⟩)) :=
  C8_validation_amended ⟨0, 0, 1⟩ 1 "SPHERICAL" .BMESH none sC8 "Cube"
    (cubeScene 1 [⟨0, 0, 0⟩] false) "Curve1" ⟨"Curve1", "CURVE", 1, [], false, true⟩
    rfl rfl rfl rfl (by decide) "Cube" rfl (by decide) (Or.inl rfl) rfl (by decide)
    (by norm_num) (by rw [Vec3.length_unitZ]; norm_num) (by decide)

theorem loopIdx_fst (d : Vec3) : ∀ (idxs : List Nat) (cos : List Vec3),
    (loopIdx d idxs cos).1 = none ∨ (loopIdx d idxs cos).1 = some .indexError := by
  intro idxs
  induction idxs with
  | nil =>
      intro cos
      left
      rfl
  | cons i rest ih =>
      intro cos
      unfold loopIdx
      by_cases h : i < cos.length
      · rw [dif_pos h]
        exact ih _
      · rw [dif_neg h]
        right
        rfl

/-- On a recognized (uppercased) space token the shared core never raises
the space error: its outcome is success or, on a bad explicit index, an
IndexError. -/
theorem move_vertices_core_fst_valid (M : Mat4) (dir : Vec3) (dist : ℝ) (space : String)
    (idx : Option (List Nat)) (cos : List Vec3)
    (h : pyUpper space = "LOCAL" ∨ pyUpper space = "WORLD") :
    (move_vertices_core M dir dist space idx cos).1 = none ∨
    (move_vertices_core M dir dist space idx cos).1 = some .indexError := by
  unfold move_vertices_core
  by_cases hd : dist = 0
  · rw [if_pos hd]
    left
    rfl
  · rw [if_neg hd]
    by_cases hl : dir.length = 0
    · rw [if_pos hl]
      left
      rfl
    · rw [if_neg hl]
      simp only []
      rcases h with h | h
      · rw [if_neg (by rw [h]; decide), if_pos h]
        cases idx with
        | none =>
            left
            rfl
        | some l =>
            simp only []
            exact loopIdx_fst _ l cos
      · rw [if_pos h]
        cases idx with
        | none =>
            left
            rfl
        | some l =>
            simp only []
            exact loopIdx_fst _ l cos

/-- C10: mode and space tokens are matched case-insensitively.  A target
mode uppercasing to OBJECT or EDIT makes the mode guard behave exactly as
with the canonical spelling, the guard accepts the canonical spellings by
switching (at most once) and running the body, and the unsupported-mode
error is produced exactly when the uppercased token is neither; a space
token uppercasing to LOCAL or WORLD makes the shared vertex core behave
exactly as with the canonical spelling, the invalid-space error is
produced when the uppercased token is neither (and the advance checks
pass), and conversely that error is only ever produced for a token whose
uppercasing is neither. -/
theorem C10_tokens_case_insensitive (objName : Option String) (target space : String)
    (M : Mat4) (dir : Vec3) (dist : ℝ) (idx : Option (List Nat)) (cos : List Vec3) :
    (pyUpper target = "OBJECT" → ∀ (B : HostState → Res) (s : HostState),
      modeScope objName target B s = modeScope objName "OBJECT" B s) ∧
    (pyUpper target = "EDIT" → ∀ (B : HostState → Res) (s : HostState),
      modeScope objName target B s = modeScope objName "EDIT" B s) ∧
    (∀ (B : HostState → Res) (s : HostState),
      modeSwitchAndBody "OBJECT" B s = B (if _is_object_mode s then s else modeSetOp s "OBJECT")) ∧
    (∀ (B : HostState → Res) (s : HostState),
      modeSwitchAndBody "EDIT" B s = B (if _is_edit_mode s then s else modeSetOp s "EDIT")) ∧
    (¬ (pyUpper target = "OBJECT" ∨ pyUpper target = "EDIT") →
      ∀ (B : HostState → Res) (s : HostState),
      modeSwitchAndBody (pyUpper target) B s =
        (some (.modeError ("Unsupported target_mode " ++ pyUpper target ++
          ". Use OBJECT or EDIT.")), s)) ∧
    (pyUpper space = "LOCAL" →
      move_vertices_core M dir dist space idx cos =
        move_vertices_core M dir dist "LOCAL" idx cos) ∧
    (pyUpper space = "WORLD" →
      move_vertices_core M dir dist space idx cos =
        move_vertices_core M dir dist "WORLD" idx cos) ∧
    (¬ (pyUpper space = "LOCAL" ∨ pyUpper space = "WORLD") → ¬ (dist = 0) →
      ¬ (dir.length = 0) →
      move_vertices_core M dir dist space idx cos =
        (some (.contextError "Space must be LOCAL or WORLD."), cos)) ∧
    ((move_vertices_core M dir dist space idx cos).1 =
        some (.contextError "Space must be LOCAL or WORLD.") →
      ¬ (pyUpper space = "LOCAL" ∨ pyUpper space = "WORLD")) := by
  refine ⟨?_, ?_, ?_, ?_, ?_, ?_, ?_, ?_, ?_⟩
  · intro h B s
    unfold modeScope
    cases objName with
    | none => rfl
    | some nm =>
        rw [h, (by decide : pyUpper "OBJECT" = "OBJECT")]
  · intro h B s
    unfold modeScope
    cases objName with
    | none => rfl
    | some nm =>
        rw [h, (by decide : pyUpper "EDIT" = "EDIT")]
  · intro B s
    unfold modeSwitchAndBody
    rw [if_pos rfl]
  · intro B s
    unfold modeSwitchAndBody
    rw [if_neg (by decide : ¬ ("EDIT" = "OBJECT")), if_pos rfl]
  · intro h B s
    unfold modeSwitchAndBody
    rw [if_neg (fun h2 => h (Or.inl h2)), if_neg (fun h2 => h (Or.inr h2))]
  · intro h
    unfold move_vertices_core
    rw [h, (by decide : pyUpper "LOCAL" = "LOCAL")]
  · intro h
    unfold move_vertices_core
    rw [h, (by decide : pyUpper "WORLD" = "WORLD")]
  · intro h hd hl
    unfold move_vertices_core
    rw [if_neg hd, if_neg hl]
    simp only []
    rw [if_neg (fun h2 => h (Or.inr h2)), if_neg (fun h2 => h (Or.inl h2))]
  · intro hcerr hsp
    rcases move_vertices_core_fst_valid M dir dist space idx cos hsp with h | h
    · rw [hcerr] at h
      cases h
    · rw [hcerr] at h
      simp at h

theorem C10_tokens_case_insensitive_witness :
    modeScope (some "Cube") "edit" pureBody sObj =
      modeScope (some "Cube") "EDIT" pureBody sObj ∧
    modeScope (some "Cube") "Object" pureBody sObj =
      modeScope (some "Cube") "OBJECT" pureBody sObj ∧
    move_vertices_core 1 ⟨0, 0, 1⟩ 1 "Local" none [⟨0, 0, 0⟩] =
      move_vertices_core 1 ⟨0, 0, 1⟩ 1 "LOCAL" none [⟨0, 0, 0⟩] ∧
    move_vertices_core 1 ⟨0, 0, 1⟩ 1 "wOrLd" none [⟨0, 0, 0⟩] =
      move_vertices_core 1 ⟨0, 0, 1⟩ 1 "WORLD" none [⟨0, 0, 0⟩] ∧
    move_vertices_core 1 ⟨0, 0, 1⟩ 1 "Spherical" none [⟨0, 0, 0⟩] =
      (some (.contextError "Space must be LOCAL or WORLD."), [⟨0, 0, 0⟩]) ∧
    modeSwitchAndBody (pyUpper "sculpt") pureBody sObj =
      (some (.modeError ("Unsupported target_mode " ++ pyUpper "sculpt" ++
        ". Use OBJECT or EDIT.")), sObj) :=
  ⟨(C10_tokens_case_insensitive (some "Cube") "edit" "Local" 1 ⟨0, 0, 1⟩ 1 none
      [⟨0, 0, 0⟩]).2.1 (by decide) pureBody sObj,
   (C10_tokens_case_insensitive (some "Cube") "Object" "Local" 1 ⟨0, 0, 1⟩ 1 none
      [⟨0, 0, 0⟩]).1 (by decide) pureBody sObj,
   (C10_tokens_case_insensitive (some "Cube") "edit" "Local" 1 ⟨0, 0, 1⟩ 1 none
      [⟨0, 0, 0⟩]).2.2.2.2.2.1 (by decide),
   (C10_tokens_case_insensitive (some "Cube") "edit" "wOrLd" 1 ⟨0, 0, 1⟩ 1 none
      [⟨0, 0, 0⟩]).2.2.2.2.2.2.1 (by decide),
   (C10_tokens_case_insensitive (some "Cube") "edit" "Spherical" 1 ⟨0, 0, 1⟩ 1 none
      [⟨0, 0, 0⟩]).2.2.2.2.2.2.2.1 (by decide) (by norm_num)
      (by rw [Vec3.length_unitZ]; norm_num),
   (C10_tokens_case_insensitive (some "Cube") "sculpt" "Local" 1 ⟨0, 0, 1⟩ 1 none
      [⟨0, 0, 0⟩]).2.2.2.2.1 (by decide) pureBody sObj⟩

end Ebpy
